import Mathlib

/-!
Verification of the collision-avoidance engine of `collision_index.ts`
(`CollisionIndex`: box placement, line-following circle placement, grid
insertion and spatial queries), shallowly embedded over `ℚ`.

Conventions of the embedding:
* screen/tile coordinates are rationals; the external `Transform`,
  glyph-placement and path routines (which live outside the translated
  sources) are abstract function parameters gathered in `ExternalEnv`;
* `Math.pow(2, x)` is an abstract function field `pow2`;
* the `GridIndex` and `PathInterpolator` classes are not part of the
  translated sources, so they are modelled from the specification
  (see the doc comments on `GridIndexM` and on the padded-length use).
-/

namespace MapLibreCollision

attribute [local semireducible] Rat.add Rat.mul Rat.inv Rat.sub

/-- A 2D point (tile or screen space), `@mapbox/point-geometry`. -/
structure Pt where
  x : ℚ
  y : ℚ
deriving DecidableEq, Repr

/-- Result of `Transform.projectTileCoordinates` (external contract, spec §6). -/
structure PointProjectionM where
  point : Pt
  signedDistanceFromCamera : ℚ
  isOccluded : Bool
deriving DecidableEq, Repr

/-- Overlap modes (spec §3: always / cooperative / ignored). -/
inductive OverlapMode where
  | always
  | cooperative
  | ignored
deriving DecidableEq, Repr

/-- `FeatureKey` from `collision_index.ts`. -/
structure FeatureKey where
  bucketInstanceId : ℕ
  featureIndex : ℕ
  collisionGroupID : ℕ
  overlapMode : OverlapMode
  collisionCircleIndex : Option ℕ
  glyphArrayIndex : Option ℕ
  glyphCharCode : Option ℕ
deriving DecidableEq, Repr

/-- A shape stored in a grid: an axis-aligned box or a circle. -/
inductive GridShape where
  | box (x1 y1 x2 y2 : ℚ)
  | circle (cx cy r : ℚ)
deriving DecidableEq, Repr

/-- Bounding box `(x1, y1, x2, y2)` of a stored shape; the grid reports
circles by their bounding square. -/
def GridShape.bbox : GridShape → ℚ × ℚ × ℚ × ℚ
  | .box x1 y1 x2 y2 => (x1, y1, x2, y2)
  | .circle cx cy r => (cx - r, cy - r, cx + r, cy + r)

/-- One stored grid entry: a shape tagged with its key. -/
structure GridEntry where
  key : FeatureKey
  shape : GridShape
deriving DecidableEq, Repr

/-- Two axis-aligned boxes overlap. -/
def boxesOverlap (ax1 ay1 ax2 ay2 bx1 by1 bx2 by2 : ℚ) : Bool :=
  decide (ax1 ≤ bx2) && decide (bx1 ≤ ax2) && decide (ay1 ≤ by2) && decide (by1 ≤ ay2)

/-- A circle overlaps an axis-aligned box (closest-point test). -/
def circleBoxOverlap (cx cy r bx1 by1 bx2 by2 : ℚ) : Bool :=
  let nx := max bx1 (min cx bx2)
  let ny := max by1 (min cy by2)
  decide ((cx - nx) ^ 2 + (cy - ny) ^ 2 ≤ r ^ 2)

/-- Two circles overlap. -/
def circlesOverlap (ax ay ar bx by_ br : ℚ) : Bool :=
  decide ((ax - bx) ^ 2 + (ay - by_) ^ 2 ≤ (ar + br) ^ 2)

/-- A stored shape overlaps a query box. -/
def GridShape.overlapsBox : GridShape → ℚ → ℚ → ℚ → ℚ → Bool
  | .box x1 y1 x2 y2, qx1, qy1, qx2, qy2 => boxesOverlap x1 y1 x2 y2 qx1 qy1 qx2 qy2
  | .circle cx cy r, qx1, qy1, qx2, qy2 => circleBoxOverlap cx cy r qx1 qy1 qx2 qy2

/-- A stored shape overlaps a query circle. -/
def GridShape.overlapsCircle : GridShape → ℚ → ℚ → ℚ → Bool
  | .box x1 y1 x2 y2, qx, qy, qr => circleBoxOverlap qx qy qr x1 y1 x2 y2
  | .circle cx cy r, qx, qy, qr => circlesOverlap cx cy r qx qy qr

/-- Modelled from the spec: the `GridIndex` class (§4.1) is not among the
translated sources.  It is an append-only list of shapes tagged with keys;
`hitTest`/`hitTestCircle` "return true iff an existing entry matching
`predicate` overlaps and `mode` is not `always`"; `query` returns all
intersecting entries; `keysLength` reports the stored-entry count. -/
structure GridIndexM where
  entries : List GridEntry
deriving DecidableEq, Repr

/-- Modelled from the spec: grid box insertion (append-only). -/
def GridIndexM.insert (g : GridIndexM) (key : FeatureKey) (x1 y1 x2 y2 : ℚ) : GridIndexM :=
  ⟨g.entries ++ [⟨key, .box x1 y1 x2 y2⟩]⟩

/-- Modelled from the spec: grid circle insertion (append-only). -/
def GridIndexM.insertCircle (g : GridIndexM) (key : FeatureKey) (cx cy r : ℚ) : GridIndexM :=
  ⟨g.entries ++ [⟨key, .circle cx cy r⟩]⟩

/-- Modelled from the spec: `hitTest` is true iff an existing entry matching
the predicate overlaps the query box and the query mode is not `always`. -/
def GridIndexM.hitTest (g : GridIndexM) (x1 y1 x2 y2 : ℚ) (mode : OverlapMode)
    (pred : FeatureKey → Bool) : Bool :=
  decide (mode ≠ .always) &&
    g.entries.any (fun e => pred e.key && e.shape.overlapsBox x1 y1 x2 y2)

/-- Modelled from the spec: `hitTestCircle`, the circle-query analogue of
`hitTest`. -/
def GridIndexM.hitTestCircle (g : GridIndexM) (cx cy r : ℚ) (mode : OverlapMode)
    (pred : FeatureKey → Bool) : Bool :=
  decide (mode ≠ .always) &&
    g.entries.any (fun e => pred e.key && e.shape.overlapsCircle cx cy r)

/-- Modelled from the spec: `query` returns all entries intersecting the box. -/
def GridIndexM.query (g : GridIndexM) (x1 y1 x2 y2 : ℚ) : List GridEntry :=
  g.entries.filter (fun e => e.shape.overlapsBox x1 y1 x2 y2)

/-- Modelled from the spec: `keysLength` reports the stored-entry count. -/
def GridIndexM.keysLength (g : GridIndexM) : ℕ :=
  g.entries.length

/-- Immutable `Transform` snapshot (spec §6): scalar fields plus the abstract
projection contract `projectTileCoordinates` and `getPitchedTextCorrection`
(the tile reference and elevation callback of the source are folded into the
abstract functions, as they are fixed for one placement call). -/
structure TransformM where
  width : ℚ
  height : ℚ
  zoom : ℚ
  cameraToCenterDistance : ℚ
  projectTileCoordinates : ℚ → ℚ → PointProjectionM
  getPitchedTextCorrection : ℚ → ℚ → ℚ

/-- `viewportPadding = 100` from `collision_index.ts`. -/
def viewportPadding : ℚ := 100

/-- The `CollisionIndex` state: transform snapshot and the two grids. -/
structure CollisionIndexM where
  transform : TransformM
  grid : GridIndexM
  ignoredGrid : GridIndexM

/-- `screenRightBoundary = width + viewportPadding`. -/
def CollisionIndexM.screenRightBoundary (ci : CollisionIndexM) : ℚ :=
  ci.transform.width + viewportPadding

/-- `screenBottomBoundary = height + viewportPadding`. -/
def CollisionIndexM.screenBottomBoundary (ci : CollisionIndexM) : ℚ :=
  ci.transform.height + viewportPadding

/-- `gridRightBoundary = width + 2 * viewportPadding`. -/
def CollisionIndexM.gridRightBoundary (ci : CollisionIndexM) : ℚ :=
  ci.transform.width + 2 * viewportPadding

/-- `gridBottomBoundary = height + 2 * viewportPadding`. -/
def CollisionIndexM.gridBottomBoundary (ci : CollisionIndexM) : ℚ :=
  ci.transform.height + 2 * viewportPadding

/-- `perspectiveRatioCutoff = 0.6`. -/
def perspectiveRatioCutoff : ℚ := 3 / 5

/-- `CollisionIndex.isOffscreen`: entirely outside the padded screen
rectangle. -/
def CollisionIndexM.isOffscreen (ci : CollisionIndexM) (x1 y1 x2 y2 : ℚ) : Bool :=
  decide (x2 < viewportPadding) || decide (x1 ≥ ci.screenRightBoundary) ||
    decide (y2 < viewportPadding) || decide (y1 > ci.screenBottomBoundary)

/-- `CollisionIndex.isInsideGrid`: intersects the padded grid bounds. -/
def CollisionIndexM.isInsideGrid (ci : CollisionIndexM) (x1 y1 x2 y2 : ℚ) : Bool :=
  decide (x2 ≥ 0) && decide (x1 < ci.gridRightBoundary) &&
    decide (y2 ≥ 0) && decide (y1 < ci.gridBottomBoundary)

/-- Result of `projectAndGetPerspectiveRatio`. -/
structure ProjectedAnchor where
  x : ℚ
  y : ℚ
  perspectiveRatio : ℚ
  isOccluded : Bool
  signedDistanceFromCamera : ℚ
deriving DecidableEq, Repr

/-- `CollisionIndex.projectAndGetPerspectiveRatio` (general branch; the
`simpleProjectionMatrix` fast path is a verbatim copy of the mercator
transform's `projectTileCoordinates` and is covered by the abstract
transform). -/
def CollisionIndexM.projectAndGetPerspectiveRatio (ci : CollisionIndexM) (x y : ℚ) :
    ProjectedAnchor :=
  let projected := ci.transform.projectTileCoordinates x y
  { x := ((projected.point.x + 1) / 2) * ci.transform.width + viewportPadding
    y := ((-projected.point.y + 1) / 2) * ci.transform.height + viewportPadding
    perspectiveRatio :=
      1 / 2 + 1 / 2 * (ci.transform.cameraToCenterDistance / projected.signedDistanceFromCamera)
    isOccluded := projected.isOccluded
    signedDistanceFromCamera := projected.signedDistanceFromCamera }

/-- `CollisionIndex.getPerspectiveRatio`: only the distance-from-camera
component is used. -/
def CollisionIndexM.getPerspectiveRatio (ci : CollisionIndexM) (x y : ℚ) : ℚ :=
  1 / 2 + 1 / 2 * (ci.transform.cameraToCenterDistance /
    (ci.transform.projectTileCoordinates x y).signedDistanceFromCamera)

/-- `SingleCollisionBox`: tile-space anchor plus four edge offsets. -/
structure SingleCollisionBox where
  anchorPointX : ℚ
  anchorPointY : ℚ
  x1 : ℚ
  y1 : ℚ
  x2 : ℚ
  y2 : ℚ
deriving DecidableEq, Repr

/-- `clamp` from `util.ts`. -/
def clampQ (v lo hi : ℚ) : ℚ := min (max v lo) hi

/-- `getAABB` from `util.ts`: bounding box `(minX, minY, maxX, maxY)` of a
point list. -/
def getAABB : List Pt → ℚ × ℚ × ℚ × ℚ
  | [] => (0, 0, 0, 0)
  | p :: rest =>
      rest.foldl
        (fun acc q =>
          (min acc.1 q.x, min acc.2.1 q.y, max acc.2.2.1 q.x, max acc.2.2.2 q.y))
        (p.x, p.y, p.x, p.y)

/-- A placed glyph: its label-plane point and the line path that leads to
it (`projection.ts`). -/
structure PlacedGlyphM where
  point : Pt
  path : List Pt
deriving DecidableEq, Repr

/-- Result of `placeFirstAndLastGlyph`. -/
structure FirstAndLastM where
  first : PlacedGlyphM
  last : PlacedGlyphM
deriving DecidableEq, Repr

/-- External routines used by `CollisionIndex` that live outside the
translated sources (`../symbol/projection`, trig from `Math`, clipping and
path interpolation).  Modelled from the spec: each is kept as an abstract
function of the arguments the source passes that vary within one call.
`pathLength` and `interpLerp` model the `PathInterpolator` of §4.2: `reset`
precomputes the (abstract) arclength of the path, and `lerp t` returns the
point at fractional padded distance `t`; `clipLineM` models `clipLine` of
§4.2 as an abstract clipper. -/
structure ExternalEnv where
  sinQ : ℚ → ℚ
  cosQ : ℚ → ℚ
  atanQ : ℚ → ℚ
  piQ : ℚ
  /-- `Math.pow 2 x`. -/
  pow2 : ℚ → ℚ
  /-- `getTileSkewVectors(transform).vecEast`. -/
  tileSkewVecEast : ℚ × ℚ
  /-- `getTileSkewVectors(transform).vecSouth`. -/
  tileSkewVecSouth : ℚ × ℚ
  /-- Modelled from the spec: arclength computed by `PathInterpolator.reset`. -/
  pathLength : List Pt → ℚ
  /-- Modelled from the spec: `PathInterpolator.lerp` for a path reset with
  the given padding; `interpLerp path padding t` is the sampled point. -/
  interpLerp : List Pt → ℚ → ℚ → Pt
  /-- Modelled from the spec: `clipLine paths minX minY maxX maxY`. -/
  clipLineM : List (List Pt) → ℚ → ℚ → ℚ → ℚ → List (List Pt)
  /-- `projectPathSpecialProjection` (external). -/
  projectPathSpecial : List Pt → List PointProjectionM
  /-- `pathSlicedToLongestUnoccluded` (external). -/
  pathSliced : List PointProjectionM → List PointProjectionM
  /-- Application of the inverted pitched label-plane matrix;
  `none` models a non-invertible matrix. -/
  labelPlaneMatrixInverse : Option (Pt → Pt)
  /-- `placeFirstAndLastGlyph labelPlaneFontScale flip` (external); `none`
  models a failed glyph placement. -/
  placeFirstAndLastGlyphM : ℚ → Bool → Option FirstAndLastM
  /-- `placeGlyphAlongLine scaledOffset flip rotateGlyphToLine glyphIndex`
  (external). -/
  placeGlyphAlongLineM : ℚ → Bool → Bool → ℕ → Option Pt

/-- Result of `_projectCollisionBox`: the AABB `(minX, minY, maxX, maxY)`
and the all-eight-points-occluded flag. -/
structure ProjectedBox where
  box : ℚ × ℚ × ℚ × ℚ
  allPointsOccluded : Bool
deriving DecidableEq, Repr

/-- East/south screen-space basis vectors of `_projectCollisionBox`:
a rotation derived from the screen delta to a one-tile-east point when
rotation-aligned but not pitch-aligned, the map-tilt skew vectors when
pitch-aligned but not rotation-aligned, and the identity otherwise. -/
def collisionBoxVectors (ci : CollisionIndexM) (env : ExternalEnv)
    (pitchWithMap rotateWithMap : Bool) (translatedAnchorX translatedAnchorY : ℚ)
    (projectedPoint : ProjectedAnchor) : (ℚ × ℚ) × (ℚ × ℚ) :=
  if rotateWithMap && !pitchWithMap then
    let projectedEast := ci.projectAndGetPerspectiveRatio (translatedAnchorX + 1) translatedAnchorY
    let toEastX := projectedEast.x - projectedPoint.x
    let toEastY := projectedEast.y - projectedPoint.y
    let angle := env.atanQ (toEastY / toEastX) + (if toEastX < 0 then env.piQ else 0)
    let s := env.sinQ angle
    let c := env.cosQ angle
    ((c, s), (-s, c))
  else if !rotateWithMap && pitchWithMap then
    (env.tileSkewVecEast, env.tileSkewVecSouth)
  else
    ((1, 0), (0, 1))

/-- Base point and distance multiplier of `_projectCollisionBox`: screen
point and `tileToViewport` in the default case; the tile-space anchor with
zoom, pitched-text and (absent a variable-anchor shift) clamped perspective
corrections when pitch-aligned.  A shift, if present, offsets the base point
along the basis. -/
def collisionBoxBase (ci : CollisionIndexM) (env : ExternalEnv) (pitchWithMap : Bool)
    (tileOverscaledZ : ℤ) (translatedAnchorX translatedAnchorY tileToViewport : ℚ)
    (projectedPoint : ProjectedAnchor) (shift : Option Pt)
    (vecEast vecSouth : ℚ × ℚ) : Pt × ℚ :=
  let config : Pt × ℚ :=
    if pitchWithMap then
      let zoomFraction := ci.transform.zoom - (tileOverscaledZ : ℚ)
      let dm0 := env.pow2 (-zoomFraction)
      let dm1 := dm0 * ci.transform.getPitchedTextCorrection translatedAnchorX translatedAnchorY
      let dm2 :=
        match shift with
        | some _ => dm1
        | none =>
            let distanceRatio :=
              projectedPoint.signedDistanceFromCamera / ci.transform.cameraToCenterDistance
            dm1 * clampQ (1 / 2 + 1 / 2 * distanceRatio) 0 4
      (⟨translatedAnchorX, translatedAnchorY⟩, dm2)
    else
      (⟨projectedPoint.x, projectedPoint.y⟩, tileToViewport)
  match shift with
  | some s =>
      (⟨config.1.x + vecEast.1 * s.x * config.2 + vecSouth.1 * s.y * config.2,
        config.1.y + vecEast.2 * s.x * config.2 + vecSouth.2 * s.y * config.2⟩, config.2)
  | none => config

/-- The eight perimeter points (corners and edge midpoints) of
`_projectCollisionBox`, built from the box offsets in the east/south basis. -/
def collisionBoxPerimeter (collisionBox : SingleCollisionBox) (basePoint : Pt)
    (distanceMultiplier : ℚ) (vecEast vecSouth : ℚ × ℚ) : List Pt :=
  let offsetXmin := collisionBox.x1 * distanceMultiplier
  let offsetXmax := collisionBox.x2 * distanceMultiplier
  let offsetXhalf := (offsetXmin + offsetXmax) / 2
  let offsetYmin := collisionBox.y1 * distanceMultiplier
  let offsetYmax := collisionBox.y2 * distanceMultiplier
  let offsetYhalf := (offsetYmin + offsetYmax) / 2
  let offsetsArray : List (ℚ × ℚ) :=
    [(offsetXmin, offsetYmin), (offsetXhalf, offsetYmin), (offsetXmax, offsetYmin),
     (offsetXmax, offsetYhalf), (offsetXmax, offsetYmax), (offsetXhalf, offsetYmax),
     (offsetXmin, offsetYmax), (offsetXmin, offsetYhalf)]
  offsetsArray.map (fun o =>
    ⟨basePoint.x + vecEast.1 * o.1 + vecSouth.1 * o.2,
     basePoint.y + vecEast.2 * o.1 + vecSouth.2 * o.2⟩)

/-- `CollisionIndex._projectCollisionBox`: perimeter in the derived basis;
when pitch-aligned each point is reprojected individually and the box is
flagged fully occluded only when no reprojected point is visible. -/
def CollisionIndexM.projectCollisionBox (ci : CollisionIndexM) (env : ExternalEnv)
    (collisionBox : SingleCollisionBox) (tileToViewport : ℚ) (tileOverscaledZ : ℤ)
    (pitchWithMap rotateWithMap : Bool) (translation : ℚ × ℚ)
    (projectedPoint : ProjectedAnchor) (shift : Option Pt) : ProjectedBox :=
  let translatedAnchorX := collisionBox.anchorPointX + translation.1
  let translatedAnchorY := collisionBox.anchorPointY + translation.2
  let vecs := collisionBoxVectors ci env pitchWithMap rotateWithMap
    translatedAnchorX translatedAnchorY projectedPoint
  let baseCfg := collisionBoxBase ci env pitchWithMap tileOverscaledZ
    translatedAnchorX translatedAnchorY tileToViewport projectedPoint shift vecs.1 vecs.2
  let points := collisionBoxPerimeter collisionBox baseCfg.1 baseCfg.2 vecs.1 vecs.2
  if pitchWithMap then
    let projected := points.map (fun p => ci.projectAndGetPerspectiveRatio p.x p.y)
    let anyPointVisible := projected.any (fun p => !p.isOccluded)
    ⟨getAABB (projected.map (fun p => ⟨p.x, p.y⟩)), !anyPointVisible⟩
  else
    ⟨getAABB points, false⟩

/-- `PlacedBox` result record. -/
structure PlacedBoxM where
  box : ℚ × ℚ × ℚ × ℚ
  placeable : Bool
  offscreen : Bool
  occluded : Bool
deriving DecidableEq, Repr

/-- `CollisionIndex.placeCollisionBox`: project the anchor, build the screen
box (fast path without pitch/rotation alignment, `_projectCollisionBox`
otherwise), then reject on occlusion, the perspective-ratio cutoff, being
outside the padded grid, or a grid hit-test conflict.  (The source also
pushes two debug entries into a local `placedCollisionCircles` array that is
never read; that dead code is omitted.) -/
def CollisionIndexM.placeCollisionBox (ci : CollisionIndexM) (env : ExternalEnv)
    (collisionBox : SingleCollisionBox) (overlapMode : OverlapMode)
    (textPixelRatio : ℚ) (tileOverscaledZ : ℤ) (pitchWithMap rotateWithMap : Bool)
    (translation : ℚ × ℚ) (pred : FeatureKey → Bool) (shift : Option Pt) : PlacedBoxM :=
  let x := collisionBox.anchorPointX + translation.1
  let y := collisionBox.anchorPointY + translation.2
  let projectedPoint := ci.projectAndGetPerspectiveRatio x y
  let tileToViewport := textPixelRatio * projectedPoint.perspectiveRatio
  let projectedBox : ProjectedBox :=
    if !pitchWithMap && !rotateWithMap then
      let pointX := projectedPoint.x +
        (match shift with | some s => s.x * tileToViewport | none => 0)
      let pointY := projectedPoint.y +
        (match shift with | some s => s.y * tileToViewport | none => 0)
      { allPointsOccluded := false
        box := (pointX + collisionBox.x1 * tileToViewport,
                pointY + collisionBox.y1 * tileToViewport,
                pointX + collisionBox.x2 * tileToViewport,
                pointY + collisionBox.y2 * tileToViewport) }
    else
      ci.projectCollisionBox env collisionBox tileToViewport tileOverscaledZ
        pitchWithMap rotateWithMap translation projectedPoint shift
  let tlX := projectedBox.box.1
  let tlY := projectedBox.box.2.1
  let brX := projectedBox.box.2.2.1
  let brY := projectedBox.box.2.2.2
  let occluded := if pitchWithMap then projectedBox.allPointsOccluded else projectedPoint.isOccluded
  let unplaceable := occluded
    || decide (projectedPoint.perspectiveRatio < perspectiveRatioCutoff)
    || !(ci.isInsideGrid tlX tlY brX brY)
  if unplaceable ||
      (decide (overlapMode ≠ .always) && ci.grid.hitTest tlX tlY brX brY overlapMode pred) then
    { box := (tlX, tlY, brX, brY), placeable := false, offscreen := false, occluded := occluded }
  else
    { box := (tlX, tlY, brX, brY), placeable := true,
      offscreen := ci.isOffscreen tlX tlY brX brY, occluded := occluded }

/-- `CollisionIndex.insertCollisionBox`: append the box under a fresh key to
the ignored grid when `ignorePlacement`, the main grid otherwise. -/
def CollisionIndexM.insertCollisionBox (ci : CollisionIndexM) (collisionBox : List ℚ)
    (overlapMode : OverlapMode) (ignorePlacement : Bool)
    (bucketInstanceId featureIndex collisionGroupID : ℕ) : CollisionIndexM :=
  let key : FeatureKey :=
    ⟨bucketInstanceId, featureIndex, collisionGroupID, overlapMode, none, none, none⟩
  let b0 := collisionBox.getD 0 0
  let b1 := collisionBox.getD 1 0
  let b2 := collisionBox.getD 2 0
  let b3 := collisionBox.getD 3 0
  if ignorePlacement then
    { ci with ignoredGrid := ci.ignoredGrid.insert key b0 b1 b2 b3 }
  else
    { ci with grid := ci.grid.insert key b0 b1 b2 b3 }

/-- `TextRotationAlignmentOverrideValue` from `text_rotation_alignment.ts`. -/
inductive TROValue where
  | inherit
  | map
  | viewport
  | viewportGlyph
deriving DecidableEq, Repr

/-- `shouldRotateGlyphToLine` from `text_rotation_alignment.ts`. -/
def shouldRotateGlyphToLine (override : TROValue) (fallback : Bool) : Bool :=
  match override with
  | .map => true
  | .viewport => false
  | .viewportGlyph => false
  | .inherit => fallback

/-- `WritingMode` from `shaping.ts` as used by `placeCollisionCircles`. -/
inductive WritingModeM where
  | horizontal
  | vertical
  | none
deriving DecidableEq, Repr

/-- The fields of a `PlacedSymbol` consumed by `placeCollisionCircles`. -/
structure PlacedSymbolM where
  anchorX : ℚ
  anchorY : ℚ
  lineOffsetX : ℚ
  lineOffsetY : ℚ
  writingMode : WritingModeM
  numGlyphs : ℕ
  lineLength : ℕ
  glyphStartIndex : ℕ
  lineStartIndex : ℕ
  segment : ℕ
deriving Repr

/-- Accessors of the glyph offset/rotation/character arrays, as functions
of the glyph index. -/
structure GlyphArraysM where
  getchar : ℕ → ℕ
  getoffsetX : ℕ → ℚ
  getoverride : ℕ → TROValue

/-- `SPECIAL_GLYPH_CODES`: code points of 'w', 'n', 's' and U+E137. -/
def SPECIAL_GLYPH_CODES : List ℕ := [119, 110, 115, 57655]

/-- `GlyphCircleHitMeta`. -/
structure GlyphCircleHitMeta where
  circleIndex : ℕ
  glyphArrayIndex : ℕ
  glyphCharCode : ℕ
deriving DecidableEq, Repr

/-- `PlacedCircles` result record; `circles` is the flat
`[x, y, radius, flag, ...]` array. -/
structure PlacedCirclesM where
  circles : List ℚ
  offscreen : Bool
  collisionDetected : Bool
  glyphHits : List GlyphCircleHitMeta
deriving DecidableEq, Repr

/-- The mutable locals of `placeCollisionCircles`, threaded as state. -/
structure CircleState where
  circles : List ℚ
  glyphHits : List GlyphCircleHitMeta
  collisionDetected : Bool
  inGrid : Bool
  entirelyOffscreen : Bool
deriving DecidableEq, Repr

/-- `ONE_EM = 24` from `one_em.ts`. -/
def ONE_EM : ℚ := 24

/-- The collision-circle radius computed at lines 330–332 of
`collision_index.ts`: `zoomFraction` is the fractional part of the zoom, the
multiplier is `1 / 2^(-zoomFraction)`, and the radius is
`multiplier * circlePixelDiameter * 0.25 * perspectiveRatio +
textPixelPadding`. -/
def collisionCircleRadius (pow2 : ℚ → ℚ)
    (zoom circlePixelDiameter perspectiveRatio textPixelPadding : ℚ) : ℚ :=
  let zoomFraction := zoom - (⌊zoom⌋ : ℚ)
  let circlePixelDiameterMultiplier := 1 / pow2 (-zoomFraction)
  circlePixelDiameterMultiplier * circlePixelDiameter * (1 / 4) * perspectiveRatio +
    textPixelPadding

/-- `circleDist = radius * 2.5`: the nominal spacing between adjacent
collision circles. -/
def circleDistOf (radius : ℚ) : ℚ := radius * (5 / 2)

/-- The per-segment circle count of lines 395–403: one circle when the
resampled length is at most half the radius, otherwise
`⌈paddedLength / circleDist⌉ + 1`.  Modelled from the spec: the
`PathInterpolator` sources are absent, and per §4.2/§8 the padded length of
a path of length `L` reset with end padding `p` is `L + 2 * p` (here
`p = radius * 0.25`). -/
def segmentNumCircles (length radius : ℚ) : ℤ :=
  let paddedLength := length + 2 * (radius * (1 / 4))
  if length ≤ (1 / 2) * radius then 1
  else ⌈paddedLength / circleDistOf radius⌉ + 1

/-- The interpolation parameter of circle `i` of `n`:
`t = i / max (n - 1) 1`. -/
def segCircleT (n i : ℕ) : ℚ := (i : ℚ) / max ((n : ℚ) - 1) 1

/-- `updateCoverage`: fold one circle's bounding square into the
`entirelyOffscreen` and `inGrid` accumulators. -/
def updateCoverage (ci : CollisionIndexM) (st : CircleState)
    (centerX centerY radius : ℚ) : CircleState :=
  let x1 := centerX - radius
  let y1 := centerY - radius
  let x2 := centerX + radius
  let y2 := centerY + radius
  { st with
    entirelyOffscreen := st.entirelyOffscreen && ci.isOffscreen x1 y1 x2 y2
    inGrid := st.inGrid || ci.isInsideGrid x1 y1 x2 y2 }

/-- The four flat array entries `[centerX, centerY, radius, flag]` pushed
for circle `i` of `n` on a segment: the center is the interpolated point at
`t = i / max (n - 1) 1` shifted by the viewport padding, and the flag
records the grid conflict of that circle. -/
def segCircleGroup (ci : CollisionIndexM) (env : ExternalEnv) (overlapMode : OverlapMode)
    (pred : FeatureKey → Bool) (seg : List Pt) (radius : ℚ) (n i : ℕ) : List ℚ :=
  let circlePosition := env.interpLerp seg (radius * (1 / 4)) (segCircleT n i)
  let centerX := circlePosition.x + viewportPadding
  let centerY := circlePosition.y + viewportPadding
  let hit := decide (overlapMode ≠ .always) &&
    ci.grid.hitTestCircle centerX centerY radius overlapMode pred
  [centerX, centerY, radius, if hit then 1 else 0]

/-- One iteration of the inner circle loop of lines 405–432: sample circle
`i`, fold coverage, hit-test the grid (skipped for overlap mode `always`),
and on a conflict with debug circles off abort the whole placement
(`Except.error`); otherwise append the circle, flagged by the conflict. -/
def segStep (ci : CollisionIndexM) (env : ExternalEnv) (overlapMode : OverlapMode)
    (pred : FeatureKey → Bool) (showCollisionCircles : Bool) (seg : List Pt)
    (radius : ℚ) (n i : ℕ) (st : CircleState) : Except Unit CircleState :=
  let circlePosition := env.interpLerp seg (radius * (1 / 4)) (segCircleT n i)
  let centerX := circlePosition.x + viewportPadding
  let centerY := circlePosition.y + viewportPadding
  let st1 := updateCoverage ci st centerX centerY radius
  let hit := decide (overlapMode ≠ .always) &&
    ci.grid.hitTestCircle centerX centerY radius overlapMode pred
  if hit && !showCollisionCircles then .error ()
  else
    let st2 := if hit then { st1 with collisionDetected := true } else st1
    .ok { st2 with circles := st2.circles ++ [centerX, centerY, radius, if hit then 1 else 0] }

/-- The inner circle loop of lines 405–432 over the remaining indices. -/
def segLoop (ci : CollisionIndexM) (env : ExternalEnv) (overlapMode : OverlapMode)
    (pred : FeatureKey → Bool) (showCollisionCircles : Bool) (seg : List Pt)
    (radius : ℚ) (n : ℕ) : List ℕ → CircleState → Except Unit CircleState
  | [], st => .ok st
  | i :: rest, st =>
      match segStep ci env overlapMode pred showCollisionCircles seg radius n i st with
      | .error e => .error e
      | .ok st1 => segLoop ci env overlapMode pred showCollisionCircles seg radius n rest st1

/-- The outer segment loop of lines 393–433: reset the interpolator with
end padding `radius * 0.25`, derive the circle count and run the inner
loop. -/
def processSegments (ci : CollisionIndexM) (env : ExternalEnv) (overlapMode : OverlapMode)
    (pred : FeatureKey → Bool) (showCollisionCircles : Bool) (radius : ℚ) :
    List (List Pt) → CircleState → Except Unit CircleState
  | [], st => .ok st
  | seg :: rest, st =>
      let n := (segmentNumCircles (env.pathLength seg) radius).toNat
      match segLoop ci env overlapMode pred showCollisionCircles seg radius n
          (List.range n) st with
      | .error e => .error e
      | .ok st1 => processSegments ci env overlapMode pred showCollisionCircles radius rest st1

/-- A special glyph collected by the first glyph loop (lines 442–470): its
label-plane point, glyph array index and character code. -/
structure GlyphCand where
  point : Pt
  glyphIndex : ℕ
  glyphCharCode : ℕ
deriving Repr

/-- The first glyph loop of lines 442–470: walk the symbol's glyph range,
keep the special marker glyphs, and place each along the line. -/
def collectSpecialGlyphs (env : ExternalEnv) (arrays : GlyphArraysM)
    (symbol : PlacedSymbolM) (labelPlaneFontScale : ℚ) (glyphFlip rotateToLine : Bool) :
    List GlyphCand :=
  (List.range symbol.numGlyphs).filterMap (fun j =>
    let glyphIndex := symbol.glyphStartIndex + j
    let glyphCharCode := arrays.getchar glyphIndex
    if SPECIAL_GLYPH_CODES.contains glyphCharCode then
      let glyphOffset := arrays.getoffsetX glyphIndex
      let rotateGlyphToLine := shouldRotateGlyphToLine (arrays.getoverride glyphIndex) rotateToLine
      match env.placeGlyphAlongLineM (labelPlaneFontScale * glyphOffset) glyphFlip
          rotateGlyphToLine glyphIndex with
      | some p => some ⟨p, glyphIndex, glyphCharCode⟩
      | none => none
    else none)

/-- The second glyph loop of lines 478–496: resolve each candidate's screen
point (skipping candidates whose pitched reprojection is missing or
occluded), fold coverage, and append a circle flagged `2` together with its
glyph-hit metadata. -/
def glyphLoop (ci : CollisionIndexM) (pitchWithMap : Bool) (radius : ℚ)
    (projections : Option (List PointProjectionM)) :
    List (ℕ × GlyphCand) → CircleState → CircleState
  | [], st => st
  | (i, g) :: rest, st =>
      let pointOpt : Option Pt :=
        if pitchWithMap then
          match projections with
          | none => none
          | some ps =>
              match ps.get? i with
              | none => none
              | some proj => if proj.isOccluded then none else some proj.point
        else some g.point
      match pointOpt with
      | none => glyphLoop ci pitchWithMap radius projections rest st
      | some p =>
          let centerX := p.x + viewportPadding
          let centerY := p.y + viewportPadding
          let st1 := updateCoverage ci st centerX centerY radius
          let circles1 := st1.circles ++ [centerX, centerY, radius, 2]
          let circleIndex := circles1.length / 4 - 1
          glyphLoop ci pitchWithMap radius projections rest
            { st1 with
              circles := circles1
              glyphHits := st1.glyphHits ++ [⟨circleIndex, g.glyphIndex, g.glyphCharCode⟩] }

/-- The tail of `placeCollisionCircles` after the visible segments are
known: run the segment loop, then (when the symbol has glyphs, line length
and glyph-circle placement was not refused) the special-glyph loop of lines
435–497. -/
def placeCirclesWithGlyphs (ci : CollisionIndexM) (env : ExternalEnv)
    (overlapMode : OverlapMode) (symbol : PlacedSymbolM) (arrays : GlyphArraysM)
    (showCollisionCircles pitchWithMap rotateToLine : Bool) (pred : FeatureKey → Bool)
    (labelPlaneFontScale radius : ℚ) (canPlaceGlyphCircles glyphFlip : Bool)
    (segments : List (List Pt)) (st0 : CircleState) : Except Unit CircleState :=
  match processSegments ci env overlapMode pred showCollisionCircles radius segments st0 with
  | .error e => .error e
  | .ok st1 =>
      if symbol.numGlyphs > 0 && symbol.lineLength > 0 && canPlaceGlyphCircles then
        let cands := collectSpecialGlyphs env arrays symbol labelPlaneFontScale
          glyphFlip rotateToLine
        let projections :=
          if pitchWithMap && cands.length > 0 then
            some (env.projectPathSpecial (cands.map (fun c => c.point)))
          else none
        .ok (glyphLoop ci pitchWithMap radius projections cands.enum st1)
      else .ok st1

/-- `projectLabelPointToClip` (lines 280–295): when pitch-aligned, map the
label-plane point back to tile space through the inverted label-plane matrix
(or `(0,0)` if it is not invertible) and project it; otherwise convert the
screen point to normalized device coordinates. -/
def projectLabelPointToClip (ci : CollisionIndexM) (env : ExternalEnv)
    (pitchWithMap : Bool) (point : Pt) : Pt :=
  if pitchWithMap then
    match env.labelPlaneMatrixInverse with
    | none => ⟨0, 0⟩
    | some inv =>
        let pos := inv point
        (ci.transform.projectTileCoordinates pos.x pos.y).point
  else
    ⟨(point.x / ci.transform.width) * 2 - 1, 1 - (point.y / ci.transform.height) * 2⟩

/-- `CollisionIndex.projectPathToScreenSpace`: project the path and keep
only the longest unoccluded slice. -/
def projectPathToScreenSpace (env : ExternalEnv) (projectedPath : List Pt) :
    List PointProjectionM :=
  env.pathSliced (env.projectPathSpecial projectedPath)

/-- The body of `CollisionIndex.placeCollisionCircles` up to (but not
including) the final result assembly of lines 500–505: the threaded
`CircleState`, or `Except.error` for the early abort on a grid conflict
with debug circles off. -/
def CollisionIndexM.placeCollisionCirclesState (ci : CollisionIndexM) (env : ExternalEnv)
    (overlapMode : OverlapMode) (symbol : PlacedSymbolM) (arrays : GlyphArraysM)
    (fontSize : ℚ) (showCollisionCircles pitchWithMap rotateToLine keepUpright : Bool)
    (pred : FeatureKey → Bool) (circlePixelDiameter textPixelPadding : ℚ) :
    Except Unit CircleState :=
  let perspectiveRatio := ci.getPerspectiveRatio symbol.anchorX symbol.anchorY
  let labelPlaneFontSize :=
    if pitchWithMap then fontSize / perspectiveRatio else fontSize * perspectiveRatio
  let labelPlaneFontScale := labelPlaneFontSize / ONE_EM
  let st0 : CircleState :=
    { circles := [], glyphHits := [], collisionDetected := false,
      inGrid := false, entirelyOffscreen := true }
  match env.placeFirstAndLastGlyphM labelPlaneFontScale false with
  | none => .ok st0
  | some fl =>
      let aspectRatio := ci.transform.width / ci.transform.height
      let flipCfg : Bool × Bool :=
        if keepUpright then
          let firstClip := projectLabelPointToClip ci env pitchWithMap fl.first.point
          let lastClip := projectLabelPointToClip ci env pitchWithMap fl.last.point
          let canPlace :=
            if symbol.writingMode = WritingModeM.horizontal then
              let rise := |lastClip.y - firstClip.y|
              let run := |lastClip.x - firstClip.x| * aspectRatio
              !(decide (rise > run))
            else true
          let needsFlip :=
            if symbol.writingMode = WritingModeM.vertical then
              decide (firstClip.y < lastClip.y)
            else decide (firstClip.x > lastClip.x)
          (canPlace, canPlace && needsFlip)
        else (true, false)
      let canPlaceGlyphCircles := flipCfg.1
      let glyphFlip := flipCfg.2
      let radius := collisionCircleRadius env.pow2 ci.transform.zoom circlePixelDiameter
        perspectiveRatio textPixelPadding
      let projectedPath0 := (fl.first.path.drop 1).reverse ++ fl.last.path.drop 1
      let projectedPath :=
        if pitchWithMap then
          let screenSpacePath := projectPathToScreenSpace env projectedPath0
          if screenSpacePath.any (fun p => decide (p.signedDistanceFromCamera ≤ 0)) then
            ([] : List Pt)
          else screenSpacePath.map (fun p => p.point)
        else projectedPath0
      let segments : List (List Pt) :=
        match projectedPath with
        | [] => []
        | p0 :: restPath =>
            let minPoint := restPath.foldl
              (fun acc q => Pt.mk (min acc.x q.x) (min acc.y q.y)) p0
            let maxPoint := restPath.foldl
              (fun acc q => Pt.mk (max acc.x q.x) (max acc.y q.y)) p0
            if decide (minPoint.x ≥ -viewportPadding) &&
                decide (maxPoint.x ≤ ci.screenRightBoundary) &&
                decide (minPoint.y ≥ -viewportPadding) &&
                decide (maxPoint.y ≤ ci.screenBottomBoundary) then
              [projectedPath]
            else if decide (maxPoint.x < -viewportPadding) ||
                decide (minPoint.x > ci.screenRightBoundary) ||
                decide (maxPoint.y < -viewportPadding) ||
                decide (minPoint.y > ci.screenBottomBoundary) then
              []
            else
              env.clipLineM [projectedPath] (-viewportPadding) (-viewportPadding)
                ci.screenRightBoundary ci.screenBottomBoundary
      placeCirclesWithGlyphs ci env overlapMode symbol arrays showCollisionCircles
        pitchWithMap rotateToLine pred labelPlaneFontScale radius
        canPlaceGlyphCircles glyphFlip segments st0

/-- `CollisionIndex.placeCollisionCircles`: the early abort returns the
empty record with `collisionDetected`; otherwise the circles are emptied
when a conflict was found with debug circles off, no circle fell inside the
grid bounds, or the perspective ratio is below the cutoff. -/
def CollisionIndexM.placeCollisionCircles (ci : CollisionIndexM) (env : ExternalEnv)
    (overlapMode : OverlapMode) (symbol : PlacedSymbolM) (arrays : GlyphArraysM)
    (fontSize : ℚ) (showCollisionCircles pitchWithMap rotateToLine keepUpright : Bool)
    (pred : FeatureKey → Bool) (circlePixelDiameter textPixelPadding : ℚ) :
    PlacedCirclesM :=
  let perspectiveRatio := ci.getPerspectiveRatio symbol.anchorX symbol.anchorY
  match ci.placeCollisionCirclesState env overlapMode symbol arrays fontSize
      showCollisionCircles pitchWithMap rotateToLine keepUpright pred
      circlePixelDiameter textPixelPadding with
  | .error _ =>
      { circles := [], offscreen := false, collisionDetected := true, glyphHits := [] }
  | .ok st =>
      { circles :=
          if (!showCollisionCircles && st.collisionDetected) || !st.inGrid ||
              decide (perspectiveRatio < perspectiveRatioCutoff) then []
          else st.circles
        offscreen := st.entirelyOffscreen
        collisionDetected := st.collisionDetected
        glyphHits := st.glyphHits }

/-- Whether any sampled circle of `placeCollisionCircles` intersected the
padded grid bounds: the `inGrid` accumulator of the final state (`false`
when placement aborted early). -/
def CollisionIndexM.placedCirclesInGrid (ci : CollisionIndexM) (env : ExternalEnv)
    (overlapMode : OverlapMode) (symbol : PlacedSymbolM) (arrays : GlyphArraysM)
    (fontSize : ℚ) (showCollisionCircles pitchWithMap rotateToLine keepUpright : Bool)
    (pred : FeatureKey → Bool) (circlePixelDiameter textPixelPadding : ℚ) : Bool :=
  match ci.placeCollisionCirclesState env overlapMode symbol arrays fontSize
      showCollisionCircles pitchWithMap rotateToLine keepUpright pred
      circlePixelDiameter textPixelPadding with
  | .error _ => false
  | .ok st => st.inGrid

/-- Split the flat circle array into `(x, y, radius)` triples, one per
group of four entries (the flag entry is not stored in the grid). -/
def circleGroups : List ℚ → List (ℚ × ℚ × ℚ)
  | x :: y :: r :: _flag :: rest => (x, y, r) :: circleGroups rest
  | _ => []

/-- `CollisionIndex.insertCollisionCircles`: return unchanged for an absent
or empty `PlacedCircles`; otherwise insert each circle into the chosen grid,
attaching glyph-hit metadata to the circles listed in `glyphHits` (the last
hit for a circle index wins, as in the `Map` the source builds). -/
def CollisionIndexM.insertCollisionCircles (ci : CollisionIndexM)
    (placedCircles : Option PlacedCirclesM) (overlapMode : OverlapMode)
    (ignorePlacement : Bool) (bucketInstanceId featureIndex collisionGroupID : ℕ) :
    CollisionIndexM :=
  match placedCircles with
  | none => ci
  | some pc =>
      if pc.circles.length = 0 then ci
      else
        let baseKey : FeatureKey :=
          ⟨bucketInstanceId, featureIndex, collisionGroupID, overlapMode, none, none, none⟩
        let findHit := fun (idx : ℕ) =>
          pc.glyphHits.reverse.find? (fun h => h.circleIndex = idx)
        let grid0 := if ignorePlacement then ci.ignoredGrid else ci.grid
        let grid1 := (circleGroups pc.circles).enum.foldl
          (fun g ic =>
            let key :=
              match findHit ic.1 with
              | some hit =>
                  { baseKey with
                    collisionCircleIndex := some hit.circleIndex
                    glyphArrayIndex := some hit.glyphArrayIndex
                    glyphCharCode := some hit.glyphCharCode }
              | none => baseKey
            g.insertCircle key ic.2.1 ic.2.2.1 ic.2.2.2)
          grid0
        if ignorePlacement then { ci with ignoredGrid := grid1 }
        else { ci with grid := grid1 }

/-- `SymbolQueryMatch`. -/
structure SymbolQueryMatchM where
  featureIndex : ℕ
  collisionCircleIndex : Option ℕ
  glyphArrayIndex : Option ℕ
  glyphCharCode : Option ℕ
deriving DecidableEq, Repr

/-- The deduplication key of a returned query match: bucket id, feature
index, and the optional collision-circle index (`none` for plain boxes). -/
def matchKey (p : ℕ × SymbolQueryMatchM) : ℕ × ℕ × Option ℕ :=
  (p.1, p.2.featureIndex, p.2.collisionCircleIndex)

/-- The candidate loop of `queryRenderedSymbols` (lines 546–604): for each
candidate entry, test true polygon intersection against the entry's corner
points, skip keys already seen (plain boxes per (bucket, feature), circle
entries per (bucket, feature, circleIndex)), and append the match, tagged
with the bucket id. -/
def queryLoop (query : List Pt) (polyTest : List Pt → List Pt → Bool) :
    List GridEntry → List (ℕ × ℕ × Option ℕ) → List (ℕ × SymbolQueryMatchM) →
    List (ℕ × SymbolQueryMatchM)
  | [], _seen, result => result
  | e :: rest, seen, result =>
      let fk := e.key
      let bb := e.shape.bbox
      let bbox : List Pt :=
        [⟨bb.1, bb.2.1⟩, ⟨bb.2.2.1, bb.2.1⟩, ⟨bb.2.2.1, bb.2.2.2⟩, ⟨bb.1, bb.2.2.2⟩]
      if !(polyTest query bbox) then queryLoop query polyTest rest seen result
      else
        let k := (fk.bucketInstanceId, fk.featureIndex, fk.collisionCircleIndex)
        if k ∈ seen then queryLoop query polyTest rest seen result
        else
          let entry : SymbolQueryMatchM :=
            match fk.collisionCircleIndex with
            | some idx =>
                ⟨fk.featureIndex, some idx, fk.glyphArrayIndex, fk.glyphCharCode⟩
            | none => ⟨fk.featureIndex, none, none, none⟩
          queryLoop query polyTest rest (k :: seen)
            (result ++ [(fk.bucketInstanceId, entry)])

/-- `CollisionIndex.queryRenderedSymbols`: pad the query polygon, gather
candidates from both grids within its bounding box, and run the candidate
loop.  The polygon-vs-polygon intersection test (external
`intersection_tests`) is an abstract parameter; the result keeps the
matches in insertion order, tagged with their bucket id (the source groups
the same matches into a map keyed by bucket id). -/
def CollisionIndexM.queryRenderedSymbols (ci : CollisionIndexM)
    (polyTest : List Pt → List Pt → Bool) (viewportQueryGeometry : List Pt) :
    List (ℕ × SymbolQueryMatchM) :=
  match viewportQueryGeometry with
  | [] => []
  | g0 :: grest =>
      if ci.grid.keysLength = 0 && ci.ignoredGrid.keysLength = 0 then []
      else
        let q0 : Pt := ⟨g0.x + viewportPadding, g0.y + viewportPadding⟩
        let query := q0 :: grest.map (fun p => Pt.mk (p.x + viewportPadding) (p.y + viewportPadding))
        let minX := (query.map (fun p => p.x)).foldl min q0.x
        let minY := (query.map (fun p => p.y)).foldl min q0.y
        let maxX := (query.map (fun p => p.x)).foldl max q0.x
        let maxY := (query.map (fun p => p.y)).foldl max q0.y
        let features := ci.grid.query minX minY maxX maxY ++
          ci.ignoredGrid.query minX minY maxX maxY
        queryLoop query polyTest features [] []

/-!  Concrete instances used by witnesses and counterexamples. -/

/-- `2 ^ x` on integer-valued rationals (the only points at which the demo
instances evaluate `Math.pow(2, ·)`). -/
def pow2int (q : ℚ) : ℚ := (2 : ℚ) ^ q.num

/-- L1 arclength of a polyline; it equals the Euclidean arclength for the
axis-aligned demo paths. -/
def pathL1Length : List Pt → ℚ
  | p :: q :: rest => (|q.x - p.x| + |q.y - p.y|) + pathL1Length (q :: rest)
  | _ => 0

/-- A flat demo transform for a 200×200 viewport at zoom 1: tile
coordinates map one-to-one onto screen coordinates and every point is at
unit distance from the camera. -/
def transformDemo : TransformM where
  width := 200
  height := 200
  zoom := 1
  cameraToCenterDistance := 1
  projectTileCoordinates := fun x y => ⟨⟨x / 100 - 1, 1 - y / 100⟩, 1, false⟩
  getPitchedTextCorrection := fun _ _ => 1

/-- First/last glyph demo: glyph points projecting to a near-vertical
screen direction, with a short vertical connecting path. -/
def flDemo : FirstAndLastM :=
  ⟨⟨⟨100, 20⟩, [⟨100, 98⟩, ⟨100, 100⟩]⟩, ⟨⟨100, 180⟩, [⟨100, 100⟩, ⟨100, 104⟩]⟩⟩

/-- Demo external environment: exact interpolation for the vertical demo
path, pass-through clipping and projection, and `pow2int` for `Math.pow`. -/
def envDemo : ExternalEnv where
  sinQ := fun _ => 0
  cosQ := fun _ => 1
  atanQ := fun _ => 0
  piQ := 3
  pow2 := pow2int
  tileSkewVecEast := (1, 0)
  tileSkewVecSouth := (0, 1)
  pathLength := pathL1Length
  interpLerp := fun ps pad t =>
    match ps with
    | p :: _ => ⟨p.x, p.y - pad + (pathL1Length ps + 2 * pad) * t⟩
    | [] => ⟨0, 0⟩
  clipLineM := fun ps _ _ _ _ => ps
  projectPathSpecial := fun ps => ps.map (fun p => ⟨p, 1, false⟩)
  pathSliced := fun ps => ps
  labelPlaneMatrixInverse := some (fun p => p)
  placeFirstAndLastGlyphM := fun _ _ => some flDemo
  placeGlyphAlongLineM := fun _ _ _ _ => some ⟨100, 102⟩

/-- Demo collision index over empty grids. -/
def ciDemo : CollisionIndexM where
  transform := transformDemo
  grid := ⟨[]⟩
  ignoredGrid := ⟨[]⟩

/-- Demo line-following symbol with horizontal writing mode and a single
special glyph. -/
def symbolDemo : PlacedSymbolM where
  anchorX := 100
  anchorY := 100
  lineOffsetX := 0
  lineOffsetY := 0
  writingMode := .horizontal
  numGlyphs := 1
  lineLength := 2
  glyphStartIndex := 0
  lineStartIndex := 0
  segment := 0

/-- Demo glyph arrays: one special glyph ('w') at offset 0. -/
def arraysDemo : GlyphArraysM where
  getchar := fun _ => 119
  getoffsetX := fun _ => 0
  getoverride := fun _ => .inherit

/-- The always-true collision-group predicate. -/
def predTrue : FeatureKey → Bool := fun _ => true

/-- A demo transform whose projected points sit far from the camera
(signed distance 10), so the perspective ratio at any anchor is `0.55`. -/
def transformFarDemo : TransformM where
  width := 200
  height := 200
  zoom := 1
  cameraToCenterDistance := 1
  projectTileCoordinates := fun x y => ⟨⟨x / 100 - 1, 1 - y / 100⟩, 10, false⟩
  getPitchedTextCorrection := fun _ _ => 1

/-- Demo collision index over the far transform and empty grids. -/
def ciFarDemo : CollisionIndexM where
  transform := transformFarDemo
  grid := ⟨[]⟩
  ignoredGrid := ⟨[]⟩

/-- A demo feature key with cooperative overlap mode. -/
def keyDemo : FeatureKey := ⟨1, 1, 1, .cooperative, none, none, none⟩

/-- Demo collision index whose main grid already holds one circle exactly
where the demo symbol's first collision circle lands. -/
def ciGridDemo : CollisionIndexM where
  transform := transformDemo
  grid := ⟨[⟨keyDemo, .circle 200 (399 / 2) 2⟩]⟩
  ignoredGrid := ⟨[]⟩

/-- Demo collision index holding two collision circles of the same feature
with distinct collision-circle indices. -/
def ciTwoCirclesDemo : CollisionIndexM where
  transform := transformDemo
  grid := ⟨[⟨⟨7, 11, 2, .always, some 0, some 3, some 119⟩, .circle 100 100 8⟩,
            ⟨⟨7, 11, 2, .always, some 1, some 4, some 110⟩, .circle 100 100 8⟩]⟩
  ignoredGrid := ⟨[]⟩

/-!  Helper lemmas about the embedded operations, shared by the claim
theorems below. -/

theorem placedBoxShape (C : Prop) [Decidable C] (bx : ℚ × ℚ × ℚ × ℚ) (occ : Bool)
    (f : ℚ × ℚ × ℚ × ℚ → Bool) :
    (if C then (⟨bx, false, false, occ⟩ : PlacedBoxM) else ⟨bx, true, f bx, occ⟩).offscreen
      = ((if C then (⟨bx, false, false, occ⟩ : PlacedBoxM) else ⟨bx, true, f bx, occ⟩).placeable
        && f (if C then (⟨bx, false, false, occ⟩ : PlacedBoxM) else ⟨bx, true, f bx, occ⟩).box) := by
  split <;> simp

theorem placeBoxCutoff (C2 : Prop) [Decidable C2] (h : C2) (b1 b3 b4 : Bool)
    (bx : ℚ × ℚ × ℚ × ℚ) (occ off : Bool) :
    (if ((b1 || decide C2 || b3) || b4 : Bool) = true then (⟨bx, false, false, occ⟩ : PlacedBoxM)
      else ⟨bx, true, off, occ⟩).placeable = false := by
  simp [decide_eq_true h]

theorem placedBoxOccShape (C : Prop) [Decidable C] (bx : ℚ × ℚ × ℚ × ℚ) (occ off : Bool) :
    (if C then (⟨bx, false, false, occ⟩ : PlacedBoxM) else ⟨bx, true, off, occ⟩).occluded = occ := by
  split <;> rfl

/-- The eight reprojected perimeter points of a pitch-aligned box placement,
as computed inside `_projectCollisionBox` for `pitchWithMap = true`. -/
def pitchedBoxProjectedPerimeter (ci : CollisionIndexM) (env : ExternalEnv)
    (box : SingleCollisionBox) (oz : ℤ) (rot : Bool) (tpr : ℚ) (tr : ℚ × ℚ)
    (shift : Option Pt) : List ProjectedAnchor :=
  let tx := box.anchorPointX + tr.1
  let ty := box.anchorPointY + tr.2
  let pp := ci.projectAndGetPerspectiveRatio tx ty
  let ttv := tpr * pp.perspectiveRatio
  let vecs := collisionBoxVectors ci env true rot tx ty pp
  let base := collisionBoxBase ci env true oz tx ty ttv pp shift vecs.1 vecs.2
  (collisionBoxPerimeter box base.1 base.2 vecs.1 vecs.2).map
    (fun p => ci.projectAndGetPerspectiveRatio p.x p.y)

theorem projBox_allOcc (ci : CollisionIndexM) (env : ExternalEnv) (box : SingleCollisionBox)
    (tpr : ℚ) (oz : ℤ) (rot : Bool) (tr : ℚ × ℚ) (shift : Option Pt) :
    (ci.projectCollisionBox env box
        (tpr * (ci.projectAndGetPerspectiveRatio (box.anchorPointX + tr.1)
          (box.anchorPointY + tr.2)).perspectiveRatio) oz true rot tr
        (ci.projectAndGetPerspectiveRatio (box.anchorPointX + tr.1) (box.anchorPointY + tr.2))
        shift).allPointsOccluded
      = (pitchedBoxProjectedPerimeter ci env box oz rot tpr tr shift).all
          (fun p => p.isOccluded) :=
  (List.all_eq_not_any_not _ _).symm

theorem segCircleGroup_ne_nil (ci : CollisionIndexM) (env : ExternalEnv)
    (mode : OverlapMode) (pred : FeatureKey → Bool) (seg : List Pt) (radius : ℚ)
    (n i : ℕ) : segCircleGroup ci env mode pred seg radius n i ≠ [] :=
  List.cons_ne_nil _ _

theorem segStep_ok {ci : CollisionIndexM} {env : ExternalEnv} {mode : OverlapMode}
    {pred : FeatureKey → Bool} {sh : Bool} {seg : List Pt} {radius : ℚ} {n i : ℕ}
    {st st1 : CircleState}
    (h : segStep ci env mode pred sh seg radius n i st = .ok st1) :
    st1.circles = st.circles ++ segCircleGroup ci env mode pred seg radius n i
    ∧ st1.glyphHits = st.glyphHits
    ∧ (sh = false → st1.collisionDetected = st.collisionDetected) := by
  unfold segStep at h
  dsimp only at h
  split at h
  · exact absurd h (by simp)
  · rename_i hcond
    injection h with h
    subst h
    split_ifs with hb
    · refine ⟨?_, rfl, ?_⟩
      · simp only [segCircleGroup, updateCoverage]
        rw [hb]
        simp
      · intro hsh
        subst hsh
        rw [hb] at hcond
        simp at hcond
    · refine ⟨?_, rfl, fun _ => rfl⟩
      simp only [segCircleGroup, updateCoverage]
      rw [Bool.not_eq_true] at hb
      rw [hb]
      simp

theorem segLoop_ok {ci : CollisionIndexM} {env : ExternalEnv} {mode : OverlapMode}
    {pred : FeatureKey → Bool} {sh : Bool} {seg : List Pt} {radius : ℚ} {n : ℕ} :
    ∀ {l : List ℕ} {st st' : CircleState},
      segLoop ci env mode pred sh seg radius n l st = .ok st' →
      st'.circles = st.circles ++
        l.flatMap (fun i => segCircleGroup ci env mode pred seg radius n i)
      ∧ st'.glyphHits = st.glyphHits
      ∧ (sh = false → st'.collisionDetected = st.collisionDetected) := by
  intro l
  induction l with
  | nil =>
      intro st st' h
      rw [segLoop] at h
      injection h with h
      subst h
      simp
  | cons i rest ih =>
      intro st st' h
      rw [segLoop] at h
      cases hstep : segStep ci env mode pred sh seg radius n i st with
      | error e => rw [hstep] at h; exact absurd h (by simp)
      | ok st1 =>
          rw [hstep] at h
          obtain ⟨hc, hg, hcd⟩ := ih h
          obtain ⟨hc1, hg1, hcd1⟩ := segStep_ok hstep
          refine ⟨?_, hg.trans hg1, fun hsh => (hcd hsh).trans (hcd1 hsh)⟩
          rw [hc, hc1, List.flatMap_cons, List.append_assoc]

theorem segLoop_inGrid_inv {ci : CollisionIndexM} {env : ExternalEnv} {mode : OverlapMode}
    {pred : FeatureKey → Bool} {sh : Bool} {seg : List Pt} {radius : ℚ} {n : ℕ} :
    ∀ {l : List ℕ} {st st' : CircleState},
      segLoop ci env mode pred sh seg radius n l st = .ok st' →
      (st.inGrid = true → st.circles ≠ []) →
      (st'.inGrid = true → st'.circles ≠ []) := by
  intro l
  induction l with
  | nil =>
      intro st st' h hinv
      rw [segLoop] at h
      injection h with h
      subst h
      exact hinv
  | cons i rest ih =>
      intro st st' h hinv
      rw [segLoop] at h
      cases hstep : segStep ci env mode pred sh seg radius n i st with
      | error e => rw [hstep] at h; exact absurd h (by simp)
      | ok st1 =>
          rw [hstep] at h
          refine ih h (fun _ => ?_)
          rw [(segStep_ok hstep).1]
          exact List.append_ne_nil_of_right_ne_nil _ (segCircleGroup_ne_nil _ _ _ _ _ _ _ _)

theorem processSegments_ok {ci : CollisionIndexM} {env : ExternalEnv} {mode : OverlapMode}
    {pred : FeatureKey → Bool} {sh : Bool} {radius : ℚ} :
    ∀ {segs : List (List Pt)} {st st' : CircleState},
      processSegments ci env mode pred sh radius segs st = .ok st' →
      st'.glyphHits = st.glyphHits
      ∧ (sh = false → st'.collisionDetected = st.collisionDetected)
      ∧ ((st.inGrid = true → st.circles ≠ []) → (st'.inGrid = true → st'.circles ≠ [])) := by
  intro segs
  induction segs with
  | nil =>
      intro st st' h
      rw [processSegments] at h
      injection h with h
      subst h
      exact ⟨rfl, fun _ => rfl, fun hi => hi⟩
  | cons seg rest ih =>
      intro st st' h
      rw [processSegments] at h
      cases hloop : segLoop ci env mode pred sh seg radius
          ((segmentNumCircles (env.pathLength seg) radius).toNat)
          (List.range ((segmentNumCircles (env.pathLength seg) radius).toNat)) st with
      | error e => rw [hloop] at h; exact absurd h (by simp)
      | ok st1 =>
          rw [hloop] at h
          obtain ⟨hg, hcd, hinv⟩ := ih h
          obtain ⟨hc1, hg1, hcd1⟩ := segLoop_ok hloop
          exact ⟨hg.trans hg1, fun hsh => (hcd hsh).trans (hcd1 hsh),
            fun hi => hinv (segLoop_inGrid_inv hloop hi)⟩

theorem glyphLoop_spec {ci : CollisionIndexM} {pitch : Bool} {radius : ℚ}
    {projections : Option (List PointProjectionM)} :
    ∀ {l : List (ℕ × GlyphCand)} {st : CircleState},
      (glyphLoop ci pitch radius projections l st).collisionDetected = st.collisionDetected
      ∧ ((st.inGrid = true → st.circles ≠ []) →
          ((glyphLoop ci pitch radius projections l st).inGrid = true →
            (glyphLoop ci pitch radius projections l st).circles ≠ [])) := by
  intro l
  induction l with
  | nil => intro st; exact ⟨rfl, fun hi => hi⟩
  | cons ig rest ih =>
      intro st
      obtain ⟨i, g⟩ := ig
      simp only [glyphLoop]
      split
      · exact ih
      · refine ⟨(ih.1).trans rfl, fun _ => ih.2 (fun _ => ?_)⟩
        exact List.append_ne_nil_of_right_ne_nil _ (List.cons_ne_nil _ _)

theorem placeCirclesWithGlyphs_ok {ci : CollisionIndexM} {env : ExternalEnv}
    {mode : OverlapMode} {symbol : PlacedSymbolM} {arrays : GlyphArraysM}
    {sh pitch rtl : Bool} {pred : FeatureKey → Bool} {lpfs radius : ℚ}
    {canPlace flip : Bool} {segments : List (List Pt)} {st0 st : CircleState}
    (h : placeCirclesWithGlyphs ci env mode symbol arrays sh pitch rtl pred lpfs radius
      canPlace flip segments st0 = .ok st) :
    (sh = false → st.collisionDetected = st0.collisionDetected)
    ∧ ((st0.inGrid = true → st0.circles ≠ []) → (st.inGrid = true → st.circles ≠ []))
    ∧ (canPlace = false → st.glyphHits = st0.glyphHits) := by
  unfold placeCirclesWithGlyphs at h
  cases hps : processSegments ci env mode pred sh radius segments st0 with
  | error e => rw [hps] at h; exact absurd h (by simp)
  | ok st1 =>
      rw [hps] at h
      obtain ⟨hg, hcd, hinv⟩ := processSegments_ok hps
      dsimp only at h
      split at h
      · rename_i hguard
        injection h with h
        subst h
        refine ⟨fun hsh => (glyphLoop_spec.1).trans (hcd hsh), ?_, ?_⟩
        · exact fun hi => glyphLoop_spec.2 (hinv hi)
        · intro hcp
          rw [hcp] at hguard
          simp at hguard
      · injection h with h
        subst h
        exact ⟨hcd, hinv, fun _ => hg⟩

theorem placeCirclesState_ok {ci : CollisionIndexM} {env : ExternalEnv} {mode : OverlapMode}
    {symbol : PlacedSymbolM} {arrays : GlyphArraysM} {fontSize : ℚ}
    {sh pitch rtl ku : Bool} {pred : FeatureKey → Bool} {cpd tpp : ℚ} {st : CircleState}
    (h : ci.placeCollisionCirclesState env mode symbol arrays fontSize sh pitch rtl ku
      pred cpd tpp = .ok st) :
    (sh = false → st.collisionDetected = false)
    ∧ (st.inGrid = true → st.circles ≠ []) := by
  unfold CollisionIndexM.placeCollisionCirclesState at h
  dsimp only at h
  split at h
  · injection h with h
    subst h
    exact ⟨fun _ => rfl, fun hi => by simp at hi⟩
  · obtain ⟨hcd, hinv, -⟩ := placeCirclesWithGlyphs_ok h
    refine ⟨fun hsh => (hcd hsh).trans rfl, fun hi => hinv (fun hi0 => ?_) hi⟩
    simp at hi0

theorem segStep_always_grid (t : TransformM) (g1 g2 ig1 ig2 : GridIndexM)
    (env : ExternalEnv) (pred : FeatureKey → Bool) (sh : Bool) (seg : List Pt)
    (radius : ℚ) (n i : ℕ) (st : CircleState) :
    segStep ⟨t, g1, ig1⟩ env .always pred sh seg radius n i st
      = segStep ⟨t, g2, ig2⟩ env .always pred sh seg radius n i st := rfl

theorem segLoop_always_grid (t : TransformM) (g1 g2 ig1 ig2 : GridIndexM)
    (env : ExternalEnv) (pred : FeatureKey → Bool) (sh : Bool) (seg : List Pt)
    (radius : ℚ) (n : ℕ) :
    ∀ (l : List ℕ) (st : CircleState),
      segLoop ⟨t, g1, ig1⟩ env .always pred sh seg radius n l st
        = segLoop ⟨t, g2, ig2⟩ env .always pred sh seg radius n l st := by
  intro l
  induction l with
  | nil => intro st; rfl
  | cons i rest ih =>
      intro st
      rw [segLoop, segLoop, segStep_always_grid t g1 g2 ig1 ig2]
      cases segStep ⟨t, g2, ig2⟩ env .always pred sh seg radius n i st with
      | error e => rfl
      | ok st1 => exact ih st1

theorem processSegments_always_grid (t : TransformM) (g1 g2 ig1 ig2 : GridIndexM)
    (env : ExternalEnv) (pred : FeatureKey → Bool) (sh : Bool) (radius : ℚ) :
    ∀ (segs : List (List Pt)) (st : CircleState),
      processSegments ⟨t, g1, ig1⟩ env .always pred sh radius segs st
        = processSegments ⟨t, g2, ig2⟩ env .always pred sh radius segs st := by
  intro segs
  induction segs with
  | nil => intro st; rfl
  | cons seg rest ih =>
      intro st
      rw [processSegments, processSegments, segLoop_always_grid t g1 g2 ig1 ig2]
      cases segLoop ⟨t, g2, ig2⟩ env .always pred sh seg radius
          ((segmentNumCircles (env.pathLength seg) radius).toNat)
          (List.range ((segmentNumCircles (env.pathLength seg) radius).toNat)) st with
      | error e => rfl
      | ok st1 => exact ih st1

theorem glyphLoop_grid (t : TransformM) (g1 g2 ig1 ig2 : GridIndexM) (pitch : Bool)
    (radius : ℚ) (projections : Option (List PointProjectionM)) :
    ∀ (l : List (ℕ × GlyphCand)) (st : CircleState),
      glyphLoop ⟨t, g1, ig1⟩ pitch radius projections l st
        = glyphLoop ⟨t, g2, ig2⟩ pitch radius projections l st := by
  intro l
  induction l with
  | nil => intro st; rfl
  | cons ig rest ih =>
      intro st
      obtain ⟨i, g⟩ := ig
      simp only [glyphLoop]
      split
      · exact ih st
      · exact ih _

theorem placeCirclesWithGlyphs_always_grid (t : TransformM) (g1 g2 ig1 ig2 : GridIndexM)
    (env : ExternalEnv) (symbol : PlacedSymbolM) (arrays : GlyphArraysM)
    (sh pitch rtl : Bool) (pred : FeatureKey → Bool) (lpfs radius : ℚ)
    (canPlace flip : Bool) (segments : List (List Pt)) (st0 : CircleState) :
    placeCirclesWithGlyphs ⟨t, g1, ig1⟩ env .always symbol arrays sh pitch rtl pred lpfs
        radius canPlace flip segments st0
      = placeCirclesWithGlyphs ⟨t, g2, ig2⟩ env .always symbol arrays sh pitch rtl pred lpfs
        radius canPlace flip segments st0 := by
  unfold placeCirclesWithGlyphs
  rw [processSegments_always_grid t g1 g2 ig1 ig2]
  cases processSegments ⟨t, g2, ig2⟩ env .always pred sh radius segments st0 with
  | error e => rfl
  | ok st1 =>
      dsimp only
      split
      · rw [glyphLoop_grid t g1 g2 ig1 ig2]
      · rfl

theorem placeCirclesState_always_grid (t : TransformM) (g1 g2 ig1 ig2 : GridIndexM)
    (env : ExternalEnv) (symbol : PlacedSymbolM) (arrays : GlyphArraysM) (fontSize : ℚ)
    (sh pitch rtl ku : Bool) (pred : FeatureKey → Bool) (cpd tpp : ℚ) :
    CollisionIndexM.placeCollisionCirclesState ⟨t, g1, ig1⟩ env .always symbol arrays
        fontSize sh pitch rtl ku pred cpd tpp
      = CollisionIndexM.placeCollisionCirclesState ⟨t, g2, ig2⟩ env .always symbol arrays
        fontSize sh pitch rtl ku pred cpd tpp := by
  unfold CollisionIndexM.placeCollisionCirclesState
  dsimp only
  have hpr : CollisionIndexM.getPerspectiveRatio ⟨t, g2, ig2⟩ symbol.anchorX symbol.anchorY
      = CollisionIndexM.getPerspectiveRatio ⟨t, g1, ig1⟩ symbol.anchorX symbol.anchorY := rfl
  have hclip : projectLabelPointToClip ⟨t, g2, ig2⟩ env pitch
      = projectLabelPointToClip ⟨t, g1, ig1⟩ env pitch := rfl
  have hsrb : CollisionIndexM.screenRightBoundary ⟨t, g2, ig2⟩
      = CollisionIndexM.screenRightBoundary ⟨t, g1, ig1⟩ := rfl
  have hsbb : CollisionIndexM.screenBottomBoundary ⟨t, g2, ig2⟩
      = CollisionIndexM.screenBottomBoundary ⟨t, g1, ig1⟩ := rfl
  rw [hpr, hclip, hsrb, hsbb]
  split
  · rfl
  · exact placeCirclesWithGlyphs_always_grid t g1 g2 ig1 ig2 env symbol arrays sh pitch
      rtl pred _ _ _ _ _ _

theorem placeCircles_always_grid (t : TransformM) (g1 g2 ig1 ig2 : GridIndexM)
    (env : ExternalEnv) (symbol : PlacedSymbolM) (arrays : GlyphArraysM) (fontSize : ℚ)
    (sh pitch rtl ku : Bool) (pred : FeatureKey → Bool) (cpd tpp : ℚ) :
    CollisionIndexM.placeCollisionCircles ⟨t, g1, ig1⟩ env .always symbol arrays fontSize
        sh pitch rtl ku pred cpd tpp
      = CollisionIndexM.placeCollisionCircles ⟨t, g2, ig2⟩ env .always symbol arrays
        fontSize sh pitch rtl ku pred cpd tpp := by
  unfold CollisionIndexM.placeCollisionCircles
  dsimp only
  rw [placeCirclesState_always_grid t g1 g2 ig1 ig2]
  rfl

theorem insertBox_hitTest {ci : CollisionIndexM} {x1 y1 x2 y2 qx1 qy1 qx2 qy2 : ℚ}
    {mode mode2 : OverlapMode} {b f cg : ℕ} {pred2 : FeatureKey → Bool}
    (hm : mode2 ≠ .always)
    (hov : boxesOverlap x1 y1 x2 y2 qx1 qy1 qx2 qy2 = true)
    (hpred : pred2 ⟨b, f, cg, mode, none, none, none⟩ = true) :
    (ci.insertCollisionBox [x1, y1, x2, y2] mode false b f cg).grid.hitTest qx1 qy1 qx2 qy2
      mode2 pred2 = true
    ∧ (ci.insertCollisionBox [x1, y1, x2, y2] mode false b f cg).grid.keysLength
      = ci.grid.keysLength + 1 := by
  constructor
  · unfold CollisionIndexM.insertCollisionBox GridIndexM.hitTest GridIndexM.insert
    simp only [if_neg Bool.false_ne_true]
    rw [decide_eq_true hm]
    simp only [Bool.true_and, List.any_append]
    apply Bool.or_eq_true_iff.mpr
    right
    simp [hpred, GridShape.overlapsBox, hov]
  · unfold CollisionIndexM.insertCollisionBox GridIndexM.keysLength GridIndexM.insert
    simp

theorem insertCircles_hitTest {ci : CollisionIndexM} {cx cy r flag qcx qcy qr : ℚ}
    {off cd : Bool} {mode mode2 : OverlapMode} {b f cg : ℕ} {pred2 : FeatureKey → Bool}
    (hm : mode2 ≠ .always)
    (hov : circlesOverlap cx cy r qcx qcy qr = true)
    (hpred : pred2 ⟨b, f, cg, mode, none, none, none⟩ = true) :
    ((ci.insertCollisionCircles (some ⟨[cx, cy, r, flag], off, cd, []⟩) mode false b f
      cg).grid.hitTestCircle qcx qcy qr mode2 pred2 = true)
    ∧ (ci.insertCollisionCircles (some ⟨[cx, cy, r, flag], off, cd, []⟩) mode false b f
        cg).grid.keysLength = ci.grid.keysLength + 1 := by
  constructor
  · unfold CollisionIndexM.insertCollisionCircles GridIndexM.hitTestCircle
      GridIndexM.insertCircle
    simp [circleGroups, decide_eq_true hm, hpred, GridShape.overlapsCircle, hov]
  · unfold CollisionIndexM.insertCollisionCircles GridIndexM.keysLength
      GridIndexM.insertCircle
    simp [circleGroups]

theorem queryLoop_pairwise (query : List Pt) (polyTest : List Pt → List Pt → Bool) :
    ∀ (entries : List GridEntry) (seen : List (ℕ × ℕ × Option ℕ))
      (result : List (ℕ × SymbolQueryMatchM)),
      (∀ p ∈ result, matchKey p ∈ seen) →
      result.Pairwise (fun a b => matchKey a ≠ matchKey b) →
      (queryLoop query polyTest entries seen result).Pairwise
        (fun a b => matchKey a ≠ matchKey b) := by
  intro entries
  induction entries with
  | nil => intro seen result hmem hpw; rw [queryLoop]; exact hpw
  | cons e rest ih =>
      intro seen result hmem hpw
      rw [queryLoop]
      dsimp only
      split
      · exact ih _ _ hmem hpw
      · split
        · exact ih _ _ hmem hpw
        · rename_i hpoly hseen
          cases hcc : e.key.collisionCircleIndex with
          | none =>
              rw [hcc] at hseen
              apply ih
              · intro p hp
                rcases List.mem_append.mp hp with hp | hp
                · exact List.mem_cons_of_mem _ (hmem p hp)
                · have hp' := List.mem_singleton.mp hp
                  subst hp'
                  simp [matchKey]
              · rw [List.pairwise_append]
                refine ⟨hpw, List.pairwise_singleton _ _, ?_⟩
                intro a ha b hb
                have hb' := List.mem_singleton.mp hb
                subst hb'
                intro hak
                have hax := hmem a ha
                rw [hak] at hax
                exact hseen hax
          | some idx =>
              rw [hcc] at hseen
              apply ih
              · intro p hp
                rcases List.mem_append.mp hp with hp | hp
                · exact List.mem_cons_of_mem _ (hmem p hp)
                · have hp' := List.mem_singleton.mp hp
                  subst hp'
                  simp [matchKey]
              · rw [List.pairwise_append]
                refine ⟨hpw, List.pairwise_singleton _ _, ?_⟩
                intro a ha b hb
                have hb' := List.mem_singleton.mp hb
                subst hb'
                intro hak
                have hax := hmem a ha
                rw [hak] at hax
                exact hseen hax

/-!  Claim theorems. -/

/-- C1 (counterexample): a box lying entirely left of screen coordinate
`-(viewportPadding + 1)` (its padded right edge is below `-1`) is classified
offscreen by `isOffscreen`, yet `placeCollisionBox` returns
`offscreen = false` because the box is unplaceable — contradicting the claim
that `offscreen` is reported independently of placement success. -/
theorem c1_offscreen_counterexample :
    ((ciDemo.placeCollisionBox envDemo ⟨-400, 100, -10, -10, 10, 10⟩ .cooperative 1 0
      false false (0, 0) predTrue none).box.2.2.1 < -1)
    ∧ ciDemo.isOffscreen
        (ciDemo.placeCollisionBox envDemo ⟨-400, 100, -10, -10, 10, 10⟩ .cooperative 1 0
          false false (0, 0) predTrue none).box.1
        (ciDemo.placeCollisionBox envDemo ⟨-400, 100, -10, -10, 10, 10⟩ .cooperative 1 0
          false false (0, 0) predTrue none).box.2.1
        (ciDemo.placeCollisionBox envDemo ⟨-400, 100, -10, -10, 10, 10⟩ .cooperative 1 0
          false false (0, 0) predTrue none).box.2.2.1
        (ciDemo.placeCollisionBox envDemo ⟨-400, 100, -10, -10, 10, 10⟩ .cooperative 1 0
          false false (0, 0) predTrue none).box.2.2.2 = true
    ∧ (ciDemo.placeCollisionBox envDemo ⟨-400, 100, -10, -10, 10, 10⟩ .cooperative 1 0
        false false (0, 0) predTrue none).placeable = false
    ∧ (ciDemo.placeCollisionBox envDemo ⟨-400, 100, -10, -10, 10, 10⟩ .cooperative 1 0
        false false (0, 0) predTrue none).offscreen = false := by decide

/-- C1 (amended): for every call to `placeCollisionBox`, the returned
`offscreen` field equals the offscreen classification of the projected box
only when the box is placeable; every unplaceable result reports
`offscreen = false` (so `offscreen = placeable && isOffscreen box`). -/
theorem c1_offscreen_amended (ci : CollisionIndexM) (env : ExternalEnv)
    (box : SingleCollisionBox) (mode : OverlapMode) (tpr : ℚ) (oz : ℤ)
    (pitch rot : Bool) (tr : ℚ × ℚ) (pred : FeatureKey → Bool) (shift : Option Pt) :
    (ci.placeCollisionBox env box mode tpr oz pitch rot tr pred shift).offscreen
      = ((ci.placeCollisionBox env box mode tpr oz pitch rot tr pred shift).placeable &&
        ci.isOffscreen (ci.placeCollisionBox env box mode tpr oz pitch rot tr pred shift).box.1
          (ci.placeCollisionBox env box mode tpr oz pitch rot tr pred shift).box.2.1
          (ci.placeCollisionBox env box mode tpr oz pitch rot tr pred shift).box.2.2.1
          (ci.placeCollisionBox env box mode tpr oz pitch rot tr pred shift).box.2.2.2) :=
  placedBoxShape _ _ _ (fun bx => ci.isOffscreen bx.1 bx.2.1 bx.2.2.1 bx.2.2.2)

/-- C2 (counterexample): at zoom 1 (zoom fraction 0, so the claimed
compensation `2^(-zoomFraction)` is 1), diameter 4, perspective ratio 1 and
padding 0, the code's radius is 1, not the claimed
`diameter × perspectiveRatio × 2^(-zoomFraction) + padding = 4`. -/
theorem c2_radius_counterexample :
    collisionCircleRadius pow2int 1 4 1 0 = 1
    ∧ collisionCircleRadius pow2int 1 4 1 0
      ≠ 4 * 1 * pow2int (-(1 - (⌊(1 : ℚ)⌋ : ℚ))) + 0 := by decide

/-- C2 (amended): the collision-circle radius equals
`2^zoomFraction × (diameter/4) × perspectiveRatio + padding` — the
compensation factor is `2^(+zoomFraction)` (the code computes
`1 / 2^(-zoomFraction)`) and a quarter of the diameter is used — and the
nominal center spacing is `2.5 ×` that radius.  The hypothesis states that
`pow2` behaves as a genuine exponential at the two points used. -/
theorem c2_radius_amended (pow2 : ℚ → ℚ) (zoom d pr pad : ℚ)
    (h : pow2 (-(zoom - (⌊zoom⌋ : ℚ))) * pow2 (zoom - (⌊zoom⌋ : ℚ)) = 1) :
    collisionCircleRadius pow2 zoom d pr pad
      = pow2 (zoom - (⌊zoom⌋ : ℚ)) * (d * (1 / 4)) * pr + pad
    ∧ circleDistOf (collisionCircleRadius pow2 zoom d pr pad)
      = (5 / 2) * collisionCircleRadius pow2 zoom d pr pad := by
  constructor
  · unfold collisionCircleRadius
    have hp : pow2 (zoom - (⌊zoom⌋ : ℚ)) = 1 / pow2 (-(zoom - (⌊zoom⌋ : ℚ))) :=
      eq_one_div_of_mul_eq_one_right h
    rw [hp]
    ring
  · unfold circleDistOf
    ring

/-- C2 witness: the amended radius formula evaluated at zoom 1, diameter 4,
perspective ratio 1, padding 0 with the integer power function. -/
theorem c2_radius_amended_witness :
    pow2int (-(1 - (⌊(1 : ℚ)⌋ : ℚ))) * pow2int (1 - (⌊(1 : ℚ)⌋ : ℚ)) = 1
    ∧ collisionCircleRadius pow2int 1 4 1 0
      = pow2int (1 - (⌊(1 : ℚ)⌋ : ℚ)) * (4 * (1 / 4)) * 1 + 0 :=
  ⟨by decide, (c2_radius_amended pow2int 1 4 1 0 (by decide)).1⟩

/-- C3 (counterexample): with `keepUpright = true`, a horizontal-writing
symbol whose first-to-last glyph direction is nearer vertical on screen
(`rise > run × aspectRatio`) still gets line-segment collision circles:
the result's circles array is nonempty, so placement is not refused
entirely. -/
theorem c3_near_vertical_counterexample :
    (|(projectLabelPointToClip ciDemo envDemo false flDemo.last.point).y -
        (projectLabelPointToClip ciDemo envDemo false flDemo.first.point).y|
      > |(projectLabelPointToClip ciDemo envDemo false flDemo.last.point).x -
        (projectLabelPointToClip ciDemo envDemo false flDemo.first.point).x|
        * (ciDemo.transform.width / ciDemo.transform.height))
    ∧ symbolDemo.writingMode = WritingModeM.horizontal
    ∧ (ciDemo.placeCollisionCircles envDemo .cooperative symbolDemo arraysDemo 16 false
        false false true predTrue 8 0).circles ≠ [] := by decide

/-- C3 (amended): with `keepUpright` requested, for a horizontal-writing
symbol whose projected first-to-last glyph direction is nearer vertical than
horizontal on screen, only the special-glyph circle placement is refused:
the result carries no glyph hits (and the flip flag stays unset), while the
ordinary line-segment circles are still placed. -/
theorem c3_near_vertical_amended (ci : CollisionIndexM) (env : ExternalEnv)
    (mode : OverlapMode) (symbol : PlacedSymbolM) (arrays : GlyphArraysM) (fontSize : ℚ)
    (sh pitch rtl : Bool) (pred : FeatureKey → Bool) (cpd tpp : ℚ) (fl : FirstAndLastM)
    (hwm : symbol.writingMode = WritingModeM.horizontal)
    (hfl : env.placeFirstAndLastGlyphM
      ((if pitch = true then fontSize / ci.getPerspectiveRatio symbol.anchorX symbol.anchorY
        else fontSize * ci.getPerspectiveRatio symbol.anchorX symbol.anchorY) / ONE_EM) false
      = some fl)
    (hrise : |(projectLabelPointToClip ci env pitch fl.last.point).y -
        (projectLabelPointToClip ci env pitch fl.first.point).y|
      > |(projectLabelPointToClip ci env pitch fl.last.point).x -
        (projectLabelPointToClip ci env pitch fl.first.point).x|
        * (ci.transform.width / ci.transform.height)) :
    (ci.placeCollisionCircles env mode symbol arrays fontSize sh pitch rtl true pred
      cpd tpp).glyphHits = [] := by
  unfold CollisionIndexM.placeCollisionCircles
  cases hs : ci.placeCollisionCirclesState env mode symbol arrays fontSize sh pitch rtl
      true pred cpd tpp with
  | error e => rfl
  | ok st =>
      dsimp only
      unfold CollisionIndexM.placeCollisionCirclesState at hs
      dsimp only at hs
      rw [hfl] at hs
      refine ((placeCirclesWithGlyphs_ok hs).2.2 ?_).trans rfl
      rw [hwm]
      simp [hrise]

/-- C3 witness: the amended statement on the near-vertical demo symbol. -/
theorem c3_near_vertical_amended_witness :
    symbolDemo.writingMode = WritingModeM.horizontal
    ∧ (ciDemo.placeCollisionCircles envDemo .cooperative symbolDemo arraysDemo 16 false
        false false true predTrue 8 0).glyphHits = [] :=
  ⟨rfl, c3_near_vertical_amended ciDemo envDemo .cooperative symbolDemo arraysDemo 16
    false false false predTrue 8 0 flDemo rfl (by decide) (by decide)⟩

/-- C4 (counterexample): at resampled length 1 and radius 4 (so
`L ≤ 0.5 r`), the code places a single circle, while the claimed formula
`max 1 (⌈(L + 0.5 r) / (2.5 r)⌉ + 1)` gives 2. -/
theorem c4_circle_count_counterexample :
    segmentNumCircles 1 4 = 1
    ∧ segmentNumCircles 1 4 ≠ max 1 (⌈((1 : ℚ) + (1 / 2) * 4) / ((5 / 2) * 4)⌉ + 1) := by
  decide

/-- C4 (amended): the per-segment circle count is 1 when `L ≤ 0.5 r` and
`⌈(L + 0.5 r) / (2.5 r)⌉ + 1` otherwise (the `max 1 (·)` form agrees only in
the second case); and the circle loop samples center `i` of `n` at
`t = i / max (n - 1) 1`, appending exactly the interpolated circle groups. -/
theorem c4_circle_count_amended (L r : ℚ) (hr : 0 < r) :
    (segmentNumCircles L r
      = if L ≤ (1 / 2) * r then 1 else ⌈(L + (1 / 2) * r) / ((5 / 2) * r)⌉ + 1)
    ∧ ((1 / 2) * r < L →
        segmentNumCircles L r = max 1 (⌈(L + (1 / 2) * r) / ((5 / 2) * r)⌉ + 1))
    ∧ (∀ (ci : CollisionIndexM) (env : ExternalEnv) (mode : OverlapMode)
        (pred : FeatureKey → Bool) (sh : Bool) (seg : List Pt) (st st' : CircleState),
        env.pathLength seg = L →
        segLoop ci env mode pred sh seg r ((segmentNumCircles L r).toNat)
          (List.range ((segmentNumCircles L r).toNat)) st = .ok st' →
        st'.circles = st.circles ++ (List.range ((segmentNumCircles L r).toNat)).flatMap
          (fun i => segCircleGroup ci env mode pred seg r ((segmentNumCircles L r).toNat) i)) := by
  have harg : (L + 2 * (r * (1 / 4))) / circleDistOf r = (L + (1 / 2) * r) / ((5 / 2) * r) := by
    rw [circleDistOf]
    ring_nf
  refine ⟨?_, ?_, ?_⟩
  · unfold segmentNumCircles
    dsimp only
    rw [harg]
  · intro hL
    unfold segmentNumCircles
    dsimp only
    rw [harg, if_neg (not_le.mpr hL)]
    have hx : (0 : ℚ) ≤ (L + (1 / 2) * r) / ((5 / 2) * r) := by
      apply div_nonneg <;> nlinarith
    have hc : (0 : ℤ) ≤ ⌈(L + (1 / 2) * r) / ((5 / 2) * r)⌉ := Int.ceil_nonneg hx
    omega
  · intro ci env mode pred sh seg st st' _ hloop
    exact (segLoop_ok hloop).1

/-- C4 witness: the amended count formula at length 10 and radius 4. -/
theorem c4_circle_count_amended_witness :
    (0 : ℚ) < 4
    ∧ segmentNumCircles 10 4
      = if (10 : ℚ) ≤ (1 / 2) * 4 then 1
        else ⌈((10 : ℚ) + (1 / 2) * 4) / ((5 / 2) * 4)⌉ + 1 :=
  ⟨by decide, (c4_circle_count_amended 10 4 (by decide)).1⟩

/-- C5: a symbol whose perspective ratio at the anchor is below the cutoff
0.6 yields no placement for any grid contents — `placeable = false` for
boxes and an empty circles array for circles. -/
theorem c5_perspective_cutoff (ci : CollisionIndexM) (env : ExternalEnv)
    (box : SingleCollisionBox) (mode : OverlapMode) (tpr : ℚ) (oz : ℤ)
    (pitch rot : Bool) (tr : ℚ × ℚ) (pred : FeatureKey → Bool) (shift : Option Pt)
    (symbol : PlacedSymbolM) (arrays : GlyphArraysM) (fontSize : ℚ)
    (sh pitchc rtl ku : Bool) (cpd tpp : ℚ) :
    ((ci.projectAndGetPerspectiveRatio (box.anchorPointX + tr.1)
        (box.anchorPointY + tr.2)).perspectiveRatio < perspectiveRatioCutoff →
      (ci.placeCollisionBox env box mode tpr oz pitch rot tr pred shift).placeable = false)
    ∧ (ci.getPerspectiveRatio symbol.anchorX symbol.anchorY < perspectiveRatioCutoff →
        (ci.placeCollisionCircles env mode symbol arrays fontSize sh pitchc rtl ku pred
          cpd tpp).circles = []) := by
  constructor
  · intro h
    exact placeBoxCutoff _ h _ _ _ _ _ _
  · intro h
    unfold CollisionIndexM.placeCollisionCircles
    cases hs : ci.placeCollisionCirclesState env mode symbol arrays fontSize sh pitchc rtl
        ku pred cpd tpp with
    | error e => simp
    | ok st => simp [decide_eq_true h]

/-- C5 witness: with the far demo transform the anchor's perspective ratio
is 0.55, and both a box and a line symbol are rejected against empty
grids. -/
theorem c5_perspective_cutoff_witness :
    ((ciFarDemo.projectAndGetPerspectiveRatio ((100 : ℚ) + 0) ((100 : ℚ) + 0)).perspectiveRatio
      < perspectiveRatioCutoff)
    ∧ (ciFarDemo.placeCollisionBox envDemo ⟨100, 100, -10, -10, 10, 10⟩ .cooperative 1 0
        false false (0, 0) predTrue none).placeable = false
    ∧ (ciFarDemo.placeCollisionCircles envDemo .cooperative symbolDemo arraysDemo 16 false
        false false false predTrue 8 0).circles = [] :=
  ⟨by decide,
    (c5_perspective_cutoff ciFarDemo envDemo ⟨100, 100, -10, -10, 10, 10⟩ .cooperative 1 0
      false false (0, 0) predTrue none symbolDemo arraysDemo 16 false false false false
      8 0).1 (by decide),
    (c5_perspective_cutoff ciFarDemo envDemo ⟨100, 100, -10, -10, 10, 10⟩ .cooperative 1 0
      false false (0, 0) predTrue none symbolDemo arraysDemo 16 false false false false
      8 0).2 (by decide)⟩

/-- C6: a symbol placed with overlap mode `always` never consults the grid's
hit-test — `placeCollisionBox` and `placeCollisionCircles` give identical
results for any two main-grid contents — yet `insertCollisionBox` and
`insertCollisionCircles` still record its geometry (the stored-entry count
grows), where a subsequent non-`always` box or circle hit-test matching the
predicate sees it. -/
theorem c6_always_mode_asymmetry (t : TransformM) (g1 g2 ig1 ig2 : GridIndexM)
    (env : ExternalEnv) (box : SingleCollisionBox) (tpr : ℚ) (oz : ℤ)
    (pitch rot : Bool) (tr : ℚ × ℚ) (pred : FeatureKey → Bool) (shift : Option Pt)
    (symbol : PlacedSymbolM) (arrays : GlyphArraysM) (fontSize : ℚ)
    (sh pitchc rtl ku : Bool) (cpd tpp : ℚ) (ci : CollisionIndexM)
    (x1 y1 x2 y2 qx1 qy1 qx2 qy2 : ℚ) (mode2 : OverlapMode) (b f cg : ℕ)
    (pred2 : FeatureKey → Bool) (cx cy r flag qcx qcy qr : ℚ) (off cd : Bool)
    (hm : mode2 ≠ .always)
    (hov : boxesOverlap x1 y1 x2 y2 qx1 qy1 qx2 qy2 = true)
    (hpred : pred2 ⟨b, f, cg, .always, none, none, none⟩ = true)
    (hovc : circlesOverlap cx cy r qcx qcy qr = true) :
    (CollisionIndexM.placeCollisionBox ⟨t, g1, ig1⟩ env box .always tpr oz pitch rot tr
        pred shift
      = CollisionIndexM.placeCollisionBox ⟨t, g2, ig2⟩ env box .always tpr oz pitch rot tr
        pred shift)
    ∧ (CollisionIndexM.placeCollisionCircles ⟨t, g1, ig1⟩ env .always symbol arrays
        fontSize sh pitchc rtl ku pred cpd tpp
      = CollisionIndexM.placeCollisionCircles ⟨t, g2, ig2⟩ env .always symbol arrays
        fontSize sh pitchc rtl ku pred cpd tpp)
    ∧ (ci.insertCollisionBox [x1, y1, x2, y2] .always false b f cg).grid.keysLength
      = ci.grid.keysLength + 1
    ∧ (ci.insertCollisionBox [x1, y1, x2, y2] .always false b f cg).grid.hitTest qx1 qy1
        qx2 qy2 mode2 pred2 = true
    ∧ (ci.insertCollisionCircles (some ⟨[cx, cy, r, flag], off, cd, []⟩) .always false b f
        cg).grid.keysLength = ci.grid.keysLength + 1
    ∧ ((ci.insertCollisionCircles (some ⟨[cx, cy, r, flag], off, cd, []⟩) .always false b f
        cg).grid.hitTestCircle qcx qcy qr mode2 pred2 = true) :=
  ⟨rfl, placeCircles_always_grid t g1 g2 ig1 ig2 env symbol arrays fontSize sh pitchc rtl
      ku pred cpd tpp,
    (insertBox_hitTest hm hov hpred).2, (insertBox_hitTest hm hov hpred).1,
    (insertCircles_hitTest hm hovc hpred).2, (insertCircles_hitTest hm hovc hpred).1⟩

/-- C6 witness: an `always` box and an `always` collision circle inserted
into the empty demo grid are both stored and both hit by subsequent
cooperative hit-tests. -/
theorem c6_always_mode_asymmetry_witness :
    OverlapMode.cooperative ≠ OverlapMode.always
    ∧ boxesOverlap 0 0 10 10 5 5 15 15 = true
    ∧ circlesOverlap 10 10 5 12 12 1 = true
    ∧ predTrue ⟨1, 2, 3, .always, none, none, none⟩ = true
    ∧ (ciDemo.insertCollisionBox [0, 0, 10, 10] .always false 1 2 3).grid.keysLength
      = ciDemo.grid.keysLength + 1
    ∧ (ciDemo.insertCollisionBox [0, 0, 10, 10] .always false 1 2 3).grid.hitTest 5 5 15 15
        .cooperative predTrue = true
    ∧ (ciDemo.insertCollisionCircles (some ⟨[10, 10, 5, 0], false, false, []⟩) .always
        false 1 2 3).grid.keysLength = ciDemo.grid.keysLength + 1
    ∧ (ciDemo.insertCollisionCircles (some ⟨[10, 10, 5, 0], false, false, []⟩) .always
        false 1 2 3).grid.hitTestCircle 12 12 1 .cooperative predTrue = true :=
  ⟨by decide, by decide, by decide, rfl,
    (c6_always_mode_asymmetry transformDemo ⟨[]⟩ ⟨[]⟩ ⟨[]⟩ ⟨[]⟩ envDemo ⟨0, 0, 0, 0, 0, 0⟩
      1 0 false false (0, 0) predTrue none symbolDemo arraysDemo 16 false false false
      false 8 0 ciDemo 0 0 10 10 5 5 15 15 .cooperative 1 2 3 predTrue 10 10 5 0 12 12 1
      false false (by decide) (by decide) rfl (by decide)).2.2.1,
    (c6_always_mode_asymmetry transformDemo ⟨[]⟩ ⟨[]⟩ ⟨[]⟩ ⟨[]⟩ envDemo ⟨0, 0, 0, 0, 0, 0⟩
      1 0 false false (0, 0) predTrue none symbolDemo arraysDemo 16 false false false
      false 8 0 ciDemo 0 0 10 10 5 5 15 15 .cooperative 1 2 3 predTrue 10 10 5 0 12 12 1
      false false (by decide) (by decide) rfl (by decide)).2.2.2.1,
    (c6_always_mode_asymmetry transformDemo ⟨[]⟩ ⟨[]⟩ ⟨[]⟩ ⟨[]⟩ envDemo ⟨0, 0, 0, 0, 0, 0⟩
      1 0 false false (0, 0) predTrue none symbolDemo arraysDemo 16 false false false
      false 8 0 ciDemo 0 0 10 10 5 5 15 15 .cooperative 1 2 3 predTrue 10 10 5 0 12 12 1
      false false (by decide) (by decide) rfl (by decide)).2.2.2.2.1,
    (c6_always_mode_asymmetry transformDemo ⟨[]⟩ ⟨[]⟩ ⟨[]⟩ ⟨[]⟩ envDemo ⟨0, 0, 0, 0, 0, 0⟩
      1 0 false false (0, 0) predTrue none symbolDemo arraysDemo 16 false false false
      false 8 0 ciDemo 0 0 10 10 5 5 15 15 .cooperative 1 2 3 predTrue 10 10 5 0 12 12 1
      false false (by decide) (by decide) rfl (by decide)).2.2.2.2.2⟩

/-- C7: with debug circles off, a detected conflict makes
`placeCollisionCircles` return exactly the empty record
(`circles = []`, `offscreen = false`, `collisionDetected = true`,
`glyphHits = []`); and the result's circles array is empty exactly when a
conflict was detected with debug circles off, or no sampled circle
intersected the padded grid bounds, or the perspective ratio is below the
cutoff. -/
theorem c7_conflict_abort_empty_iff (ci : CollisionIndexM) (env : ExternalEnv)
    (mode : OverlapMode) (symbol : PlacedSymbolM) (arrays : GlyphArraysM) (fontSize : ℚ)
    (sh pitch rtl ku : Bool) (pred : FeatureKey → Bool) (cpd tpp : ℚ) :
    (sh = false →
      (ci.placeCollisionCircles env mode symbol arrays fontSize sh pitch rtl ku pred
        cpd tpp).collisionDetected = true →
      ci.placeCollisionCircles env mode symbol arrays fontSize sh pitch rtl ku pred cpd tpp
        = ⟨[], false, true, []⟩)
    ∧ ((ci.placeCollisionCircles env mode symbol arrays fontSize sh pitch rtl ku pred
          cpd tpp).circles = [] ↔
        ((sh = false ∧ (ci.placeCollisionCircles env mode symbol arrays fontSize sh pitch
            rtl ku pred cpd tpp).collisionDetected = true)
          ∨ ci.placedCirclesInGrid env mode symbol arrays fontSize sh pitch rtl ku pred
              cpd tpp = false
          ∨ ci.getPerspectiveRatio symbol.anchorX symbol.anchorY < perspectiveRatioCutoff)) := by
  unfold CollisionIndexM.placeCollisionCircles CollisionIndexM.placedCirclesInGrid
  dsimp only
  cases hs : ci.placeCollisionCirclesState env mode symbol arrays fontSize sh pitch rtl ku
      pred cpd tpp with
  | error e =>
      refine ⟨fun _ _ => rfl, ?_⟩
      simp
  | ok st =>
      obtain ⟨hcd0, hinv⟩ := placeCirclesState_ok hs
      constructor
      · intro hsh hcd
        dsimp only at hcd
        exact absurd (hcd.symm.trans (hcd0 hsh)) (by simp)
      · dsimp only
        split
        · rename_i hC
          simp only [true_iff]
          exact or_assoc.mp (by simpa using hC)
        · rename_i hC
          have hgr : st.inGrid = true := by
            rcases Bool.eq_false_or_eq_true st.inGrid with hg | hg
            · exact hg
            · exfalso
              apply hC
              rw [hg]
              simp
          have hnpr : ¬ (ci.getPerspectiveRatio symbol.anchorX symbol.anchorY <
              perspectiveRatioCutoff) := by
            intro hpr
            exact hC (by simp [hpr])
          have hncd : ¬ (sh = false ∧ st.collisionDetected = true) := by
            rintro ⟨hsh, hcdt⟩
            exact hC (by rw [hsh, hcdt]; simp)
          constructor
          · intro hempty
            exact absurd hempty (hinv hgr)
          · rintro (hc | hig | hpr)
            · exact absurd hc hncd
            · rw [hgr] at hig
              simp at hig
            · exact absurd hpr hnpr

/-- C7 witness: the demo grid already holds a circle exactly where the first
sampled circle lands, so with debug circles off the placement aborts with
the empty record and `collisionDetected = true`. -/
theorem c7_conflict_abort_empty_iff_witness :
    (ciGridDemo.placeCollisionCircles envDemo .cooperative symbolDemo arraysDemo 16 false
      false false false predTrue 8 0)
      = ⟨[], false, true, []⟩ :=
  (c7_conflict_abort_empty_iff ciGridDemo envDemo .cooperative symbolDemo arraysDemo 16
    false false false false predTrue 8 0).1 rfl (by decide)

/-- C8: for every pitch-aligned box placement, the result's `occluded` flag
is true exactly when all eight reprojected perimeter points are occluded;
if at least one is visible the box is not flagged occluded. -/
theorem c8_pitched_occlusion_all_eight (ci : CollisionIndexM) (env : ExternalEnv)
    (box : SingleCollisionBox) (mode : OverlapMode) (tpr : ℚ) (oz : ℤ) (rot : Bool)
    (tr : ℚ × ℚ) (pred : FeatureKey → Bool) (shift : Option Pt) :
    (ci.placeCollisionBox env box mode tpr oz true rot tr pred shift).occluded
      = (pitchedBoxProjectedPerimeter ci env box oz rot tpr tr shift).all
          (fun p => p.isOccluded)
    ∧ ((∃ p ∈ pitchedBoxProjectedPerimeter ci env box oz rot tpr tr shift,
          p.isOccluded = false) →
        (ci.placeCollisionBox env box mode tpr oz true rot tr pred shift).occluded = false) := by
  have h1 : (ci.placeCollisionBox env box mode tpr oz true rot tr pred shift).occluded
      = (pitchedBoxProjectedPerimeter ci env box oz rot tpr tr shift).all
        (fun p => p.isOccluded) :=
    (placedBoxOccShape _ _ _ _).trans (projBox_allOcc ci env box tpr oz rot tr shift)
  refine ⟨h1, ?_⟩
  rintro ⟨p, hp, hocc⟩
  rw [h1]
  apply Bool.eq_false_iff.mpr
  intro hall
  rw [List.all_eq_true] at hall
  have hpa := hall p hp
  rw [hocc] at hpa
  simp at hpa

/-- C8 witness: a pitch-aligned demo box whose perimeter points are all
visible is not flagged occluded. -/
theorem c8_pitched_occlusion_all_eight_witness :
    (∃ p ∈ pitchedBoxProjectedPerimeter ciDemo envDemo ⟨100, 100, -10, -10, 10, 10⟩ 0
      true 1 (0, 0) none, p.isOccluded = false)
    ∧ (ciDemo.placeCollisionBox envDemo ⟨100, 100, -10, -10, 10, 10⟩ .cooperative 1 0 true
        true (0, 0) predTrue none).occluded = false :=
  ⟨by decide,
    (c8_pitched_occlusion_all_eight ciDemo envDemo ⟨100, 100, -10, -10, 10, 10⟩
      .cooperative 1 0 true (0, 0) predTrue none).2 (by decide)⟩

/-- C9: the matches returned by `queryRenderedSymbols` never repeat a
deduplication key — at most one match per (bucket, featureIndex) pair for
entries without a collision-circle index and at most one per
(bucket, featureIndex, collisionCircleIndex) triple for circle entries —
while one feature with two distinct circle indices does yield two
matches (demo conjunct). -/
theorem c9_query_dedup (ci : CollisionIndexM) (polyTest : List Pt → List Pt → Bool)
    (geom : List Pt) :
    (ci.queryRenderedSymbols polyTest geom).Pairwise (fun a b => matchKey a ≠ matchKey b)
    ∧ (ciTwoCirclesDemo.queryRenderedSymbols (fun _ _ => true) [⟨0, 0⟩]).length = 2 := by
  constructor
  · unfold CollisionIndexM.queryRenderedSymbols
    split
    · exact List.Pairwise.nil
    · dsimp only
      split
      · exact List.Pairwise.nil
      · exact queryLoop_pairwise _ _ _ _ _ (fun p hp => absurd hp (List.not_mem_nil p))
          List.Pairwise.nil
  · decide

/-- C10: `insertCollisionCircles` with an absent `PlacedCircles` or an empty
circles array leaves the collision index — both grids, their contents and
stored-entry counts — unchanged. -/
theorem c10_insert_empty_noop (ci : CollisionIndexM) (mode : OverlapMode) (ig : Bool)
    (b f cg : ℕ) (pc : PlacedCirclesM) (hpc : pc.circles = []) :
    ci.insertCollisionCircles none mode ig b f cg = ci
    ∧ ci.insertCollisionCircles (some pc) mode ig b f cg = ci
    ∧ (ci.insertCollisionCircles (some pc) mode ig b f cg).grid.keysLength
      = ci.grid.keysLength
    ∧ (ci.insertCollisionCircles (some pc) mode ig b f cg).ignoredGrid.keysLength
      = ci.ignoredGrid.keysLength := by
  have h2 : ci.insertCollisionCircles (some pc) mode ig b f cg = ci := by
    unfold CollisionIndexM.insertCollisionCircles
    dsimp only
    rw [hpc]
    simp
  exact ⟨rfl, h2, by rw [h2], by rw [h2]⟩

/-- C10 witness: inserting an empty `PlacedCircles` into the demo index is a
no-op. -/
theorem c10_insert_empty_noop_witness :
    (⟨[], false, false, []⟩ : PlacedCirclesM).circles = []
    ∧ ciDemo.insertCollisionCircles (some ⟨[], false, false, []⟩) .cooperative false 1 2 3
      = ciDemo :=
  ⟨rfl, (c10_insert_empty_noop ciDemo .cooperative false 1 2 3
    ⟨[], false, false, []⟩ rfl).2.1⟩

end MapLibreCollision
